import Mathlib

/-!
Shallow embedding of the realtime-backend game server (the socket.io server
file of this repository).  Rooms and per-room game states are association
lists keyed by room code; the socket handlers (createRoom, joinRoom,
makeMove, disconnect) and the per-game move processors are translated as
pure functions.  JavaScript in-place mutation is modelled by returning the
mutated record; `Option` results model handlers that can throw a TypeError
(`none` = the JS exception); reads of possibly-`undefined` array slots are
modelled with `jsGet`, which returns `none` for an out-of-range index.
`Math.random` draws (the room code, the ludo dice value) are passed in as
explicit oracle arguments.
-/

abbrev PlayerId := String

structure Player where
  id : PlayerId
  name : String
  ready : Bool
  deriving Repr, DecidableEq

structure Room where
  code : String
  host : PlayerId
  players : List Player
  gameSelected : Option String
  deriving Repr, DecidableEq

/-- JS array read `l[i]`: `none` models `undefined` (negative or too-large index). -/
def jsGet (l : List α) (i : Int) : Option α :=
  if 0 ≤ i then l.get? i.toNat else none

/-- JS array write `l[i] = v`; an out-of-range write (which in JS creates a
sparse slot or a non-index property that no handler ever reads back) leaves
the list unchanged. -/
def jsSet (l : List α) (i : Int) (v : α) : List α :=
  if 0 ≤ i then l.set i.toNat v else l

/-- JS array write through a possibly-`undefined` index
(`l[undefined] = v` only creates an unused property). -/
def jsSetU (l : List α) (i : Option Int) (v : α) : List α :=
  match i with
  | none => l
  | some i => jsSet l i v

/-- JS `Array.prototype.findIndex`: the index of the first match, `-1` if none. -/
def findIndexJs (l : List α) (p : α → Bool) : Int :=
  match l.findIdx? p with
  | some i => (i : Int)
  | none => -1

/-- JS comparison `i < n` where `i` may be `undefined` (comparisons with
`undefined` are `false`). -/
def jsLtB (i : Option Int) (n : Int) : Bool :=
  match i with
  | none => false
  | some v => v < n

/-- JS comparison `i >= n` where `i` may be `undefined`. -/
def jsGeB (i : Option Int) (n : Int) : Bool :=
  match i with
  | none => false
  | some v => n ≤ v

/-- JS bounds test `0 <= i && i < n` where `i` may be `undefined`. -/
def jsInB (i : Option Int) (n : Nat) : Bool :=
  match i with
  | none => false
  | some v => 0 ≤ v ∧ v < (n : Int)

/-- Association-list read, modelling `Map.prototype.get` /
JS object property lookup keyed by strings. -/
def aget (m : List (String × α)) (k : String) : Option α :=
  (m.find? (fun e => e.1 == k)).map (fun e => e.2)

/-- Association-list write, modelling `Map.prototype.set` / JS object
property assignment: replaces the existing binding or appends a new one. -/
def aset : List (String × α) → String → α → List (String × α)
  | [], k, v => [(k, v)]
  | e :: rest, k, v => if e.1 == k then (k, v) :: rest else e :: aset rest k v

/-- Cell of the minesweeper board. -/
structure MsCell where
  isMine : Bool
  isRevealed : Bool
  neighborCount : Nat
  revealedBy : Option PlayerId
  deriving Repr, DecidableEq

/-- The per-player score object `{ player1, player2 }`. -/
structure Scores where
  player1 : Nat
  player2 : Nat
  deriving Repr, DecidableEq

structure MinesBoard where
  board : List (List MsCell)
  scores : Scores
  deriving Repr, DecidableEq

structure Card where
  value : Nat
  flipped : Bool
  matched : Bool
  deriving Repr, DecidableEq

structure MemoryBoard where
  cards : List Card
  flippedCards : List Int
  scores : Scores
  deriving Repr, DecidableEq

structure DotsBoard where
  gridSize : Nat
  horizontalLines : List (List Bool)
  verticalLines : List (List Bool)
  boxes : List (List (Option String))
  scores : Scores
  completedBoxes : Nat
  totalBoxes : Nat
  deriving Repr, DecidableEq

structure LudoSide where
  pieces : List Nat
  home : Nat
  deriving Repr, DecidableEq

/-- The ludo board object; `player1`/`player2` model the JS
`board.players` object keyed by `'player1'` / `'player2'`. -/
structure LudoBoard where
  player1 : LudoSide
  player2 : LudoSide
  diceValue : Nat
  diceRolled : Bool
  winner : Option PlayerId
  deriving Repr, DecidableEq

inductive CColor where
  | red
  | black
  deriving Repr, DecidableEq

/-- A checkers piece; the JS strings `'red'`, `'black'`, `'red-king'`,
`'black-king'` are modelled as colour plus king flag (`s.includes(colour)`
is the colour test, `s.includes('king')` the king test). -/
structure CPiece where
  color : CColor
  king : Bool
  deriving Repr, DecidableEq

structure BsPos where
  row : Int
  col : Int
  deriving Repr, DecidableEq

/-- A battleship ship as submitted by the client.  The JS code also reads
`ship.sunk`, which is never written anywhere (always `undefined`, hence
falsy), so it is not a field here. -/
structure Ship where
  positions : List BsPos
  deriving Repr, DecidableEq

inductive ShotMark where
  | hit
  | miss
  deriving Repr, DecidableEq

/-- One player's side of the battleship board. -/
structure BsSide where
  ships : List Ship
  shots : List (Option ShotMark)
  deriving Repr, DecidableEq

/-- The polymorphic `gameState.board` payload.  `Board.none` is the JS
`null` the field is initialised with. -/
inductive Board where
  | none
  | tictactoe (cells : List (Option Char))
  | connect4 (grid : List (List (Option Char)))
  | checkers (grid : List (List (Option CPiece)))
  | battleship (sides : List (PlayerId × BsSide))
  | gomoku (grid : List (List (Option Char)))
  | dotsandboxes (d : DotsBoard)
  | ludo (l : LudoBoard)
  | minichess (grid : List (List (Option Char)))
  | memorymatch (m : MemoryBoard)
  | minesweeper (m : MinesBoard)
  deriving Repr, DecidableEq

/-- The per-room game state record.  `timer` is `true` when the JS `timer`
field holds a live timeout handle (`null` otherwise); `phase` is the
battleship-only field (`undefined` = `none` elsewhere); `draw` is the field
some handlers attach dynamically (absent = `false`). -/
structure GameState where
  currentPlayer : PlayerId
  gameType : String
  board : Board
  winner : Option PlayerId
  gameOver : Bool
  players : List Player
  timer : Bool
  timerStarted : Bool
  firstMoveMade : Bool
  phase : Option String
  timeLeft : Option Nat
  draw : Bool
  deriving Repr, DecidableEq

/-- A client move object; every field a handler ever destructures is an
optional field here, `none` modelling a missing property (`undefined`). -/
structure Move where
  index : Option Int := none
  column : Option Int := none
  type : Option String := none
  row : Option Int := none
  col : Option Int := none
  action : Option String := none
  pieceIndex : Option Int := none
  fromRow : Option Int := none
  fromCol : Option Int := none
  toRow : Option Int := none
  toCol : Option Int := none
  cardIndex : Option Int := none
  ships : Option (List Ship) := none
  deriving Repr, DecidableEq

/-- The `{ gameState, valid, …extra }` result of a move processor (the
`gameState` component is returned alongside).  The gomoku `winningLine`
payload and the captured-piece value in the checkers `captured` payload are
the only extras not modelled (no claim mentions them). -/
structure MoveResult where
  valid : Bool
  winner : Option PlayerId := none
  draw : Bool := false
  completedBoxes : List (Nat × Nat) := []
  boxesCompleted : Bool := false
  matched : Bool := false
  noMatch : Bool := false
  hitMine : Bool := false
  hit : Bool := false
  phase : Option String := none
  sunk : Option Ship := none
  captured : Option (Int × Int) := none
  turnSkipped : Bool := false
  deriving Repr, DecidableEq

inductive Event where
  | roomCreated (code : String) (isHost : Bool)
  | roomJoined (code : String) (isHost : Bool)
  | playerJoined (players : List Player) (code : String)
  | playerLeft (players : List Player)
  | errorMsg (msg : String)
  | gameSelectedEv (gameType : String)
  | gameUpdate (gs : GameState) (res : MoveResult)
  | timerUpdate (timeLeft : Int)
  deriving Repr, DecidableEq

abbrev RoomsMap := List (String × Room)
abbrev GSMap := List (String × GameState)

/-- `if (gameState.timer) { clearTimeout(gameState.timer); gameState.timer = null; }`
(the `clearTimeout` call itself is external). -/
def clearTimer (gs : GameState) : GameState :=
  if gs.timer then { gs with timer := false } else gs

/-- `gameState.players[1 - currentIndex].id` where
`currentIndex = players.findIndex(p => p.id === playerId)`;
`none` models the TypeError thrown when that slot is `undefined`. -/
def otherPlayerId (players : List Player) (pid : PlayerId) : Option PlayerId :=
  (jsGet players (1 - findIndexJs players (fun p => p.id == pid))).map (fun p => p.id)

/-- Grid cell read `grid[r][c]` merging `undefined` and `null` into `none`
(used where the JS only tests truthiness / `=== symbol`). -/
def cellAt (grid : List (List (Option α))) (r c : Int) : Option α :=
  ((jsGet grid r).bind (fun row => jsGet row c)).join

/-- Grid cell read keeping the `undefined` (outer `none`) / `null`
(`some none`) distinction, for the places where the JS tests `!== null`. -/
def rawCellAt (grid : List (List (Option α))) (r c : Int) : Option (Option α) :=
  (jsGet grid r).bind (fun row => jsGet row c)

/-- Grid cell write `grid[r][c] = v` (no-op when the row is missing,
which no reachable write does). -/
def setCell (grid : List (List α)) (r c : Int) (v : α) : List (List α) :=
  match jsGet grid r with
  | none => grid
  | some row => jsSet grid r (jsSet row c v)

/-! ## tictactoe -/

def tttWinPatterns : List (List Nat) :=
  [[0, 1, 2], [3, 4, 5], [6, 7, 8],
   [0, 3, 6], [1, 4, 7], [2, 5, 8],
   [0, 4, 8], [2, 4, 6]]

def processTicTacToeMove (gs : GameState) (move : Move) (pid : PlayerId) :
    Option (GameState × MoveResult) :=
  -- the JS guard `currentPlayer !== playerId || board[move.index] !== null || gameOver`
  -- short-circuits, so the board is only read when the first test fails
  if gs.currentPlayer ≠ pid then some (gs, { valid := false })
  else
    match gs.board with
    | .none => none  -- board is null: reading `board[move.index]` throws
    | .tictactoe cells =>
      if move.index.bind (jsGet cells) ≠ some Option.none ∨ gs.gameOver then
        some (gs, { valid := false })
      else
        let gs1 := clearTimer gs
        let playerIndex := findIndexJs gs1.players (fun p => p.id == pid)
        let symbol := if playerIndex = 0 then 'X' else 'O'
        let cells1 := jsSetU cells move.index (some symbol)
        let gs2 := { gs1 with board := .tictactoe cells1, firstMoveMade := true }
        if tttWinPatterns.any (fun pat => pat.all (fun i => (cells1.get? i).join == some symbol)) then
          some ({ gs2 with winner := some pid, gameOver := true },
                { valid := true, winner := some pid })
        else if cells1.all (fun c => c.isSome) then
          some ({ gs2 with gameOver := true }, { valid := true, draw := true })
        else
          match otherPlayerId gs2.players pid with
          | none => none
          | some oid => some ({ gs2 with currentPlayer := oid }, { valid := true })
    | _ => some (gs, { valid := false })
      -- indexing a non-array board object yields undefined (≠ null): rejected

/-! ## connect4 -/

/-- The `for (let r = 5; r >= 0; r--)` scan for the lowest empty row of the
column; `some (-1)` = no empty row found, outer `none` = `board[r]` was
`undefined` (ragged grid), where the JS would throw. -/
def c4FindRowAux (grid : List (List (Option Char))) (col : Option Int) :
    List Int → Option Int
  | [] => some (-1)
  | r :: rest =>
    match jsGet grid r with
    | none => none
    | some rowL =>
      if col.bind (jsGet rowL) = some Option.none then some r
      else c4FindRowAux grid col rest

/-- The `count` accumulated walking from the placed cell in direction
`(dr, dc)` over the steps `is`, stopping (JS `break`) at the first cell that
is out of the fixed 6×7 bounds or does not hold `symbol`. -/
def c4CountDir (grid : List (List (Option Char))) (row col dr dc : Int)
    (symbol : Char) : List Int → Nat
  | [] => 0
  | i :: rest =>
    let newRow := row + dr * i
    let newCol := col + dc * i
    if 0 ≤ newRow ∧ newRow < 6 ∧ 0 ≤ newCol ∧ newCol < 7 ∧
        cellAt grid newRow newCol = some symbol then
      1 + c4CountDir grid row col dr dc symbol rest
    else 0

def checkConnect4Winner (grid : List (List (Option Char))) (row col : Int)
    (symbol : Char) : Bool :=
  [((0 : Int), (1 : Int)), (1, 0), (1, 1), (1, -1)].any fun d =>
    4 ≤ 1 + c4CountDir grid row col d.1 d.2 symbol [1, 2, 3]
          + c4CountDir grid row col (-d.1) (-d.2) symbol [1, 2, 3]

def processConnect4Move (gs : GameState) (move : Move) (pid : PlayerId) :
    Option (GameState × MoveResult) :=
  if gs.currentPlayer ≠ pid then some (gs, { valid := false })
  else
    match gs.board with
    | .connect4 grid =>
      let col := move.column
      let playerIndex := findIndexJs gs.players (fun p => p.id == pid)
      let symbol := if playerIndex = 0 then 'R' else 'Y'
      match c4FindRowAux grid col [5, 4, 3, 2, 1, 0] with
      | none => none
      | some row =>
        if row = -1 then some (gs, { valid := false })
        else
          let grid1 := setCell grid row (col.getD 0) (some symbol)
          -- `col` is `some` here: an undefined column never compares `=== null`
          let gs1 := { gs with board := .connect4 grid1 }
          if checkConnect4Winner grid1 row (col.getD 0) symbol then
            some ({ gs1 with winner := some pid, gameOver := true },
                  { valid := true, winner := some pid })
          else
            match otherPlayerId gs1.players pid with
            | none => none
            | some oid => some ({ gs1 with currentPlayer := oid }, { valid := true })
    | _ => none
      -- scanning `board[5..0][col]` on a board of another shape faults in general

/-! ## gomoku -/

/-- Same directional walk as connect4 on the fixed 15×15 bounds with steps
up to 4. -/
def gomokuCountDir (grid : List (List (Option Char))) (row col dr dc : Int)
    (symbol : Char) : List Int → Nat
  | [] => 0
  | i :: rest =>
    let newRow := row + dr * i
    let newCol := col + dc * i
    if 0 ≤ newRow ∧ newRow < 15 ∧ 0 ≤ newCol ∧ newCol < 15 ∧
        cellAt grid newRow newCol = some symbol then
      1 + gomokuCountDir grid row col dr dc symbol rest
    else 0

def checkGomokuWinner (grid : List (List (Option Char))) (row col : Int)
    (symbol : Char) : Bool :=
  [((0 : Int), (1 : Int)), (1, 0), (1, 1), (1, -1)].any fun d =>
    5 ≤ 1 + gomokuCountDir grid row col d.1 d.2 symbol [1, 2, 3, 4]
          + gomokuCountDir grid row col (-d.1) (-d.2) symbol [1, 2, 3, 4]

/-- The `findWinningLine` payload of a winning gomoku move is not modelled
(no claim mentions it). -/
def processGomokuMove (gs : GameState) (move : Move) (pid : PlayerId) :
    Option (GameState × MoveResult) :=
  if gs.currentPlayer ≠ pid ∨ gs.gameOver then some (gs, { valid := false })
  else
    let gs := clearTimer gs
    match gs.board with
    | .gomoku grid =>
      match move.index with
      | none => none  -- row = Math.floor(undefined/15) = NaN; board[NaN][col] throws
      | some idx =>
        let row : Int := Int.fdiv idx 15   -- Math.floor(move.index / 15)
        let col : Int := Int.tmod idx 15   -- move.index % 15 (JS truncated remainder)
        match jsGet grid row with
        | none => none  -- board[row] is undefined: board[row][col] throws
        | some rowL =>
          if jsGet rowL col ≠ some Option.none then some (gs, { valid := false })
          else
            let playerIndex := findIndexJs gs.players (fun p => p.id == pid)
            let symbol := if playerIndex = 0 then '●' else '○'
            let grid1 := setCell grid row col (some symbol)
            let gs1 := { gs with board := .gomoku grid1, firstMoveMade := true }
            if checkGomokuWinner grid1 row col symbol then
              some ({ gs1 with winner := some pid, gameOver := true },
                    { valid := true, winner := some pid })
            else if grid1.all (fun r => r.all (fun c => c.isSome)) then
              some ({ gs1 with gameOver := true }, { valid := true, draw := true })
            else
              match otherPlayerId gs1.players pid with
              | none => none
              | some oid => some ({ gs1 with currentPlayer := oid }, { valid := true })
    | _ => none
      -- board[row][col] on a board of another shape faults in general


/-! ## dots and boxes -/

/-- Read `lines[r][c]` where the handler has already established the bounds
(out-of-range reads, which the JS would let throw or read as undefined,
default to `false`; unreachable on the 4×3 / 3×4 line grids). -/
def lineAt (lines : List (List Bool)) (r c : Int) : Bool :=
  ((jsGet lines r).bind (fun row => jsGet row c)).getD false

def dnbBoxPairs : List (Int × Int) :=
  [(0, 0), (0, 1), (0, 2), (1, 0), (1, 1), (1, 2), (2, 0), (2, 1), (2, 2)]

/-- `checkCompletedBoxes`: scans the 3×3 boxes in row-major order, claiming
(mutating `boxes`) every unowned box whose four surrounding lines are
present; returns the mutated board with the list of claimed coordinates. -/
def checkCompletedBoxes (d : DotsBoard) (playerSymbol : String) :
    DotsBoard × List (Nat × Nat) :=
  dnbBoxPairs.foldl
    (fun acc rc =>
      let d := acc.1
      if cellAt d.boxes rc.1 rc.2 ≠ none then acc
      else
        let topLine := lineAt d.horizontalLines rc.1 rc.2
        let bottomLine := lineAt d.horizontalLines (rc.1 + 1) rc.2
        let leftLine := lineAt d.verticalLines rc.1 rc.2
        let rightLine := lineAt d.verticalLines rc.1 (rc.2 + 1)
        if topLine && bottomLine && leftLine && rightLine then
          ({ d with boxes := setCell d.boxes rc.1 rc.2 (some playerSymbol) },
           acc.2 ++ [(rc.1.toNat, rc.2.toNat)])
        else acc)
    (d, [])

/-- The line-placement test and write of the dots-and-boxes handler:
`row >= 0 && row < lines.length && col >= 0 && col < lines[row].length &&
!lines[row][col]` (comparisons against an undefined row/col are false).
`none` = the line cannot be placed. -/
def dnbTryPlace (lines : List (List Bool)) (row col : Option Int) :
    Option (List (List Bool)) :=
  match row, col with
  | some r, some c =>
    if 0 ≤ r ∧ r < (lines.length : Int) then
      match jsGet lines r with
      | some rowL =>
        if (0 ≤ c ∧ c < (rowL.length : Int)) ∧ jsGet rowL c = some false then
          some (setCell lines r c true)
        else none
      | none => none
    else none
  | _, _ => none

/-- Tail of the dots-and-boxes handler once a line has been placed: box
claiming, scoring, turn switching and the end-of-game check. -/
def dnbAfterLine (gs : GameState) (d1 : DotsBoard) (pid : PlayerId) :
    Option (GameState × MoveResult) :=
  let gs1 := { gs with firstMoveMade := true }
  let playerIndex := findIndexJs gs1.players (fun p => p.id == pid)
  let playerSymbol := if playerIndex = 0 then "P1" else "P2"
  let scan := checkCompletedBoxes d1 playerSymbol
  let d2 := scan.1
  let completed := scan.2
  if 0 < completed.length then
    -- player keeps the turn and scores the claimed boxes
    let newScores :=
      if playerIndex = 0 then { d2.scores with player1 := d2.scores.player1 + completed.length }
      else { d2.scores with player2 := d2.scores.player2 + completed.length }
    let d3 := { d2 with
      scores := newScores,
      completedBoxes := d2.completedBoxes + completed.length }
    dnbFinish gs1 d3 completed
  else
    match otherPlayerId gs1.players pid with
    | none => none
    | some oid => dnbFinish { gs1 with currentPlayer := oid } d2 completed
where
  /-- End-of-game check plus the `{ gameState, valid, completedBoxes,
  boxesCompleted, winner, draw }` result. -/
  dnbFinish (gs : GameState) (d : DotsBoard) (completed : List (Nat × Nat)) :
      Option (GameState × MoveResult) :=
    let ret := fun (g : GameState) =>
      some (g, { valid := true, completedBoxes := completed,
                 boxesCompleted := decide (0 < completed.length),
                 winner := g.winner, draw := g.draw })
    let base := { gs with board := .dotsandboxes d }
    if d.totalBoxes ≤ d.completedBoxes then
      if d.scores.player2 < d.scores.player1 then
        match jsGet gs.players 0 with
        | none => none  -- gameState.players[0].id throws on an empty snapshot
        | some p => ret { base with gameOver := true, winner := some p.id }
      else if d.scores.player1 < d.scores.player2 then
        match jsGet gs.players 1 with
        | none => none
        | some p => ret { base with gameOver := true, winner := some p.id }
      else ret { base with gameOver := true, draw := true }
    else ret base

def processDotsAndBoxesMove (gs : GameState) (move : Move) (pid : PlayerId) :
    Option (GameState × MoveResult) :=
  if gs.currentPlayer ≠ pid ∨ gs.gameOver then some (gs, { valid := false })
  else
    let gs := clearTimer gs
    match gs.board with
    | .dotsandboxes d =>
      let placed :=
        if move.type = some "horizontal" then
          (dnbTryPlace d.horizontalLines move.row move.col).map
            (fun hl => { d with horizontalLines := hl })
        else if move.type = some "vertical" then
          (dnbTryPlace d.verticalLines move.row move.col).map
            (fun vl => { d with verticalLines := vl })
        else none
      match placed with
      | none => some (gs, { valid := false })
      | some d1 => dnbAfterLine gs d1 pid
    | _ => none  -- board.horizontalLines is undefined: reading `.length` throws

/-! ## ludo -/

/-- The JS `board.players[playerKey]` lookup, with
`playerKey = playerIndex === 0 ? 'player1' : 'player2'`. -/
def ludoSideOf (b : LudoBoard) (playerIndex : Int) : LudoSide :=
  if playerIndex = 0 then b.player1 else b.player2

/-- `canPlayerMove(board, playerKey, diceValue)`: true when some piece can
start (at home with a 6) or advance without overshooting position 57. -/
def canPlayerMove (b : LudoBoard) (playerIndex : Int) (diceValue : Nat) : Bool :=
  (ludoSideOf b playerIndex).pieces.any (fun pos =>
    (decide (pos = 0) && decide (diceValue = 6)) ||
    (decide (0 < pos) && decide (pos + diceValue ≤ 57)))

/-- Write `pieces[pieceIndex] = newPosition`; both the index and the value
are absent together exactly when the client omitted `pieceIndex` (the JS
then assigns through `undefined`, touching no array slot). -/
def ludoSetPiece (pieces : List Nat) (i : Option Int) (v : Option Nat) : List Nat :=
  match i, v with
  | some i, some v => jsSet pieces i v
  | _, _ => pieces

/-- The ludo handler; `dice` is the oracle for
`Math.floor(Math.random() * 6) + 1` consumed by the `rollDice` action. -/
def processLudoMove (gs : GameState) (move : Move) (pid : PlayerId) (dice : Nat) :
    Option (GameState × MoveResult) :=
  if gs.currentPlayer ≠ pid ∨ gs.gameOver then some (gs, { valid := false })
  else
    let gs := clearTimer gs
    let playerIndex := findIndexJs gs.players (fun p => p.id == pid)
    if move.action = some "rollDice" then
      match gs.board with
      | .ludo b =>
        let b1 := { b with diceValue := dice, diceRolled := true }
        let gs1 := { gs with board := .ludo b1, firstMoveMade := true }
        if ¬ canPlayerMove b1 playerIndex dice then
          -- no valid move with this roll: forfeit the turn at once
          let b2 := { b1 with diceRolled := false }
          match otherPlayerId gs1.players pid with
          | none => none
          | some oid =>
            some ({ gs1 with board := .ludo b2, currentPlayer := oid },
                  { valid := true })
        else some (gs1, { valid := true })
      | _ => none  -- canPlayerMove reads board.players[…].pieces: faults elsewhere
    else if move.action = some "movePiece" then
      match gs.board with
      | .ludo b =>
        if ¬ b.diceRolled then some (gs, { valid := false })
          -- without an unconsumed roll the action falls to the final reject
        else
          let side := ludoSideOf b playerIndex
          let pieces := side.pieces
          if jsLtB move.pieceIndex 0 ∨ jsGeB move.pieceIndex pieces.length then
            some (gs, { valid := false })
          else
            let currentPosition : Option Nat := move.pieceIndex.bind (jsGet pieces)
            if currentPosition = some 0 ∧ b.diceValue ≠ 6 then
              some (gs, { valid := false })  -- cannot leave home without a 6
            else
              let np0 : Option Nat :=
                if currentPosition = some 0 ∧ b.diceValue = 6 then some 1
                else currentPosition.map (fun c => c + b.diceValue)
              let finished := match np0 with
                | some v => decide (57 ≤ v)
                | none => false
              let np1 : Option Nat := if finished then some 57 else np0
              let side1 := { side with
                pieces := ludoSetPiece pieces move.pieceIndex np1,
                home := if finished then side.home + 1 else side.home }
              let b1 := { b with
                diceRolled := false,
                player1 := if playerIndex = 0 then side1 else b.player1,
                player2 := if playerIndex = 0 then b.player2 else side1 }
              let gs1 := { gs with board := .ludo b1 }
              if 2 ≤ side1.home then
                some ({ gs1 with winner := some pid, gameOver := true },
                      { valid := true, winner := some pid })
              else if b.diceValue ≠ 6 then
                match otherPlayerId gs1.players pid with
                | none => none
                | some oid => some ({ gs1 with currentPlayer := oid }, { valid := true })
              else some (gs1, { valid := true })  -- rolled a 6: extra turn
      | _ => some (gs, { valid := false })
        -- board.diceRolled is undefined on another board shape: final reject
    else some (gs, { valid := false })

/-! ## minichess -/

def miniChessInit : List (List (Option Char)) :=
  [[some 'r', some 'n', some 'k', some 'n', some 'r'],
   [some 'p', some 'p', some 'p', some 'p', some 'p'],
   [none, none, none, none, none],
   [some 'P', some 'P', some 'P', some 'P', some 'P'],
   [some 'R', some 'N', some 'K', some 'N', some 'R']]

/-- The `while (currentRow !== toRow || currentCol !== toCol)` walk of
`isPathClear`; the fuel bounds the number of steps (for the rook moves that
reach this loop it equals the travelled distance, so the walk always ends
on its own before the fuel runs out). -/
def pathClearWalk (board : List (List (Option Char))) (toRow toCol stepRow stepCol : Int) :
    Int → Int → Nat → Bool
  | _, _, 0 => true
  | currentRow, currentCol, fuel + 1 =>
    if currentRow = toRow ∧ currentCol = toCol then true
    else if rawCellAt board currentRow currentCol ≠ some Option.none then false
      -- any occupied (or undefined) square blocks the path
    else pathClearWalk board toRow toCol stepRow stepCol
      (currentRow + stepRow) (currentCol + stepCol) fuel

def isPathClear (board : List (List (Option Char))) (fromRow fromCol toRow toCol : Int) : Bool :=
  let deltaRow := toRow - fromRow
  let deltaCol := toCol - fromCol
  let stepRow : Int := if deltaRow = 0 then 0 else if 0 < deltaRow then 1 else -1
  let stepCol : Int := if deltaCol = 0 then 0 else if 0 < deltaCol then 1 else -1
  pathClearWalk board toRow toCol stepRow stepCol
    (fromRow + stepRow) (fromCol + stepCol)
    (deltaRow.natAbs + deltaCol.natAbs + 1)

/-- `isValidChessMove(board, fromRow, fromCol, toRow, toCol)`.  The source
cell is non-empty at every call site (the handler and `getValidMoves` both
guard `!piece`); an empty source cell would make the JS throw and yields
`false` here. -/
def isValidChessMove (board : List (List (Option Char))) (fromRow fromCol toRow toCol : Int) : Bool :=
  match cellAt board fromRow fromCol with
  | none => false
  | some pc =>
    let piece := pc.toLower
    let deltaRow := toRow - fromRow
    let deltaCol := toCol - fromCol
    let targetPiece := cellAt board toRow toCol
    let ownCapture : Bool := match targetPiece with
      | some t => pc.isUpper == t.isUpper
      | none => false
    if ownCapture then false
    else if piece = 'p' then
      let direction : Int := if pc.isUpper then 1 else -1
      if deltaCol = 0 ∧ targetPiece = none then deltaRow = direction
      else if deltaCol.natAbs = 1 ∧ targetPiece ≠ none then deltaRow = direction
      else false
    else if piece = 'r' then
      if deltaRow = 0 ∨ deltaCol = 0 then isPathClear board fromRow fromCol toRow toCol
      else false
    else if piece = 'n' then
      (deltaRow.natAbs = 2 ∧ deltaCol.natAbs = 1) ∨
      (deltaRow.natAbs = 1 ∧ deltaCol.natAbs = 2)
    else if piece = 'k' then
      deltaRow.natAbs ≤ 1 ∧ deltaCol.natAbs ≤ 1
    else false

def processMiniChessMove (gs : GameState) (move : Move) (pid : PlayerId) :
    Option (GameState × MoveResult) :=
  if gs.currentPlayer ≠ pid ∨ gs.gameOver then some (gs, { valid := false })
  else
    let gs := clearTimer gs
    -- bounds test `fromRow < 0 || fromRow >= 5 || …` (false on undefined fields)
    if jsLtB move.fromRow 0 ∨ jsGeB move.fromRow 5 ∨
       jsLtB move.fromCol 0 ∨ jsGeB move.fromCol 5 ∨
       jsLtB move.toRow 0 ∨ jsGeB move.toRow 5 ∨
       jsLtB move.toCol 0 ∨ jsGeB move.toCol 5 then
      some (gs, { valid := false })
    else
      match gs.board with
      | .minichess grid =>
        match move.fromRow, move.toRow with
        | some fr, some tr =>
          let piece := match move.fromCol with
            | some fc => cellAt grid fr fc
            | none => none   -- board[fromRow][undefined] is undefined
          match piece with
          | none => some (gs, { valid := false })
          | some pc =>
            -- fromCol is `some` here (an undefined column reads no piece)
            let fc := move.fromCol.getD 0
            let targetPiece := match move.toCol with
              | some tc => cellAt grid tr tc
              | none => none
            let playerIndex := findIndexJs gs.players (fun p => p.id == pid)
            let isWhitePlayer := playerIndex = 0
            if isWhitePlayer ≠ pc.isUpper then some (gs, { valid := false })
            else
              match move.toCol with
              | none => some (gs, { valid := false })
                -- NaN deltas make every piece rule of isValidChessMove false
              | some tc =>
                if ¬ isValidChessMove grid fr fc tr tc then some (gs, { valid := false })
                else
                  let grid1 := setCell (setCell grid tr tc (some pc)) fr fc none
                  let gs1 := { gs with board := .minichess grid1, firstMoveMade := true }
                  if (match targetPiece with
                      | some t => t.toLower == 'k'
                      | none => false : Bool) then
                    some ({ gs1 with winner := some pid, gameOver := true },
                          { valid := true, winner := some pid })
                  else
                    match otherPlayerId gs1.players pid with
                    | none => none
                    | some oid => some ({ gs1 with currentPlayer := oid }, { valid := true })
        | _, _ => none
          -- an undefined fromRow/toRow passes the bounds test and then
          -- `board[undefined][…]` throws
      | _ => none  -- board[fromRow] on a board of another shape faults in general

/-! ## memory match -/

def processMemoryMatchMove (gs : GameState) (move : Move) (pid : PlayerId) :
    Option (GameState × MoveResult) :=
  if gs.currentPlayer ≠ pid ∨ gs.gameOver then some (gs, { valid := false })
  else
    let gs := clearTimer gs
    match gs.board with
    | .memorymatch m =>
      match move.cardIndex with
      | none => some (gs, { valid := false })  -- cards[undefined] is undefined: !card
      | some idx =>
        match jsGet m.cards idx with
        | none => some (gs, { valid := false })  -- out of range: !card
        | some card =>
          if card.flipped ∨ card.matched then some (gs, { valid := false })
          else
            let cards1 := jsSet m.cards idx { card with flipped := true }
            let flipped1 := m.flippedCards ++ [idx]
            let gs1 := { gs with firstMoveMade := true }
            -- `flippedCards.length === 2` (after the push) means the list is a pair
            match flipped1 with
            | [firstIndex, secondIndex] =>
                match jsGet cards1 firstIndex, jsGet cards1 secondIndex with
                | some firstCard, some secondCard =>
                  if firstCard.value = secondCard.value then
                    -- match found: mark both, score, clear the pending pair
                    let cards2 := jsSet (jsSet cards1 firstIndex { firstCard with matched := true })
                      secondIndex { secondCard with matched := true }
                    let playerIndex := findIndexJs gs1.players (fun p => p.id == pid)
                    let scores1 : Scores :=
                      if playerIndex = 0 then { m.scores with player1 := m.scores.player1 + 1 }
                      else { m.scores with player2 := m.scores.player2 + 1 }
                    let m1 := { m with cards := cards2, flippedCards := [], scores := scores1 }
                    let gs2 := { gs1 with board := .memorymatch m1 }
                    if cards2.all (fun c => c.matched) then
                      let gsOver := { gs2 with gameOver := true }
                      if scores1.player2 < scores1.player1 then
                        match jsGet gs2.players 0 with
                        | none => none  -- players[0].id throws
                        | some p =>
                          some ({ gsOver with winner := some p.id },
                                { valid := true, matched := true })
                      else if scores1.player1 < scores1.player2 then
                        match jsGet gs2.players 1 with
                        | none => none
                        | some p =>
                          some ({ gsOver with winner := some p.id },
                                { valid := true, matched := true })
                      else
                        some ({ gsOver with draw := true },
                              { valid := true, matched := true })
                    else some (gs2, { valid := true, matched := true })
                  else
                    -- no match: both stay flipped, flip-back is external
                    let m1 := { m with cards := cards1, flippedCards := flipped1 }
                    some ({ gs1 with board := .memorymatch m1 },
                          { valid := true, noMatch := true })
                | _, _ => none  -- a stale pending index: `.value` on undefined throws
            | _ =>
              let m1 := { m with cards := cards1, flippedCards := flipped1 }
              some ({ gs1 with board := .memorymatch m1 }, { valid := true })
    | _ => none  -- board.cards is undefined on another board shape: faults

/-! ## minesweeper -/

def msDeltas : List (Int × Int) :=
  [(-1, -1), (-1, 0), (-1, 1), (0, -1), (0, 1), (1, -1), (1, 0), (1, 1)]

/-- `calculateNeighborMines`: counts mines among the 8 neighbours inside
the fixed 8×8 bounds. -/
def calculateNeighborMines (board : List (List MsCell)) (row col : Int) : Nat :=
  msDeltas.foldl
    (fun count d =>
      let newRow := row + d.1
      let newCol := col + d.2
      if 0 ≤ newRow ∧ newRow < 8 ∧ 0 ≤ newCol ∧ newCol < 8 then
        match (jsGet board newRow).bind (fun r => jsGet r newCol) with
        | some c => if c.isMine then count + 1 else count
        | none => count  -- ragged board (the JS would throw); the real board is 8×8
      else count)
    0

def processMinesweeperMove (gs : GameState) (move : Move) (pid : PlayerId) :
    Option (GameState × MoveResult) :=
  if gs.currentPlayer ≠ pid ∨ gs.gameOver then some (gs, { valid := false })
  else
    let gs := clearTimer gs
    match gs.board with
    | .minesweeper m =>
      match move.row with
      | none => none  -- board[undefined][col] throws
      | some r =>
        match jsGet m.board r with
        | none => none  -- row out of bounds: board[row] is undefined, [col] throws
        | some rowL =>
          match move.col.bind (jsGet rowL) with
          | none => none  -- cell is undefined: `.isRevealed` throws
          | some cell =>
            if cell.isRevealed then some (gs, { valid := false })
            else
              let c := move.col.getD 0  -- `some` here: the cell read succeeded
              let gs1 := { gs with firstMoveMade := true }
              let cell1 := { cell with isRevealed := true, revealedBy := some pid }
              let board1 := setCell m.board r c cell1
              if cell.isMine then
                match otherPlayerId gs1.players pid with
                | none => none
                | some oid =>
                  some ({ gs1 with
                            board := .minesweeper { m with board := board1 },
                            gameOver := true,
                            winner := some oid },
                        { valid := true, hitMine := true, winner := some oid })
              else
                let cell2 := { cell1 with neighborCount := calculateNeighborMines board1 r c }
                let board2 := setCell m.board r c cell2
                let playerIndex := findIndexJs gs1.players (fun p => p.id == pid)
                let scores1 : Scores :=
                  if playerIndex = 0 then { m.scores with player1 := m.scores.player1 + 1 }
                  else { m.scores with player2 := m.scores.player2 + 1 }
                let m1 := { m with board := board2, scores := scores1 }
                let revealedSafeCells :=
                  (board2.flatten.filter (fun cl => cl.isRevealed && !cl.isMine)).length
                let gs2 := { gs1 with board := .minesweeper m1 }
                if revealedSafeCells = 64 - 10 then
                  let gsOver := { gs2 with gameOver := true }
                  if scores1.player2 < scores1.player1 then
                    match jsGet gs2.players 0 with
                    | none => none
                    | some p => some ({ gsOver with winner := some p.id }, { valid := true })
                  else if scores1.player1 < scores1.player2 then
                    match jsGet gs2.players 1 with
                    | none => none
                    | some p => some ({ gsOver with winner := some p.id }, { valid := true })
                  else some ({ gsOver with draw := true }, { valid := true })
                else
                  match otherPlayerId gs2.players pid with
                  | none => none
                  | some oid => some ({ gs2 with currentPlayer := oid }, { valid := true })
    | _ => none  -- board.board is undefined on another board shape: faults

/-! ## checkers

The source defines `processCheckersMove` and `processBattleshipMove` twice;
the later definitions are the ones in force (JS function hoisting) and are
the ones embedded here. -/

/-- `isValidCheckersMove`.  `piece` is the (re-read) source-cell piece; the
caller has established it is non-empty.  `toRow`/`toCol` may be undefined,
in which case the NaN deltas fail the diagonal test.  Outer `none` models
the TypeError on `board[toRow][toCol]` when `toRow` is outside the grid. -/
def isValidCheckersMove (board : List (List (Option CPiece))) (fromRow fromCol : Int)
    (toRow toCol : Option Int) (playerColor : CColor) (piece : CPiece) :
    Option Bool :=
  match toRow, toCol with
  | some tr, some tc =>
    let deltaRow := tr - fromRow
    let deltaCol := (tc - fromCol).natAbs
    if deltaRow.natAbs ≠ deltaCol then some false  -- must be diagonal
    else
      match jsGet board tr with
      | none => none  -- board[toRow] is undefined: [toCol] throws
      | some rowT =>
        if jsGet rowT tc ≠ some Option.none then some false  -- target must be empty
        else if ¬ piece.king ∧
            ((playerColor = .red ∧ 0 < deltaRow) ∨ (playerColor = .black ∧ deltaRow < 0)) then
          some false  -- regular pieces move forward only
        else if deltaRow.natAbs = 1 then some true
        else if deltaRow.natAbs = 2 then
          let midRow := fromRow + deltaRow / 2
          let midCol := fromCol + (tc - fromCol) / 2
          match jsGet board midRow with
          | none => none  -- ragged grid: board[midRow][midCol] throws
          | some rowM =>
            match (jsGet rowM midCol).join with
            | none => some false  -- must jump over a piece
            | some midPiece =>
              some (midPiece.color = (if playerColor = .red then CColor.black else CColor.red))
        else some false
  | _, _ => some false
    -- an undefined coordinate gives NaN deltas: `Math.abs(deltaRow) !== deltaCol`

/-- `checkForCapture`: on a two-square jump, removes the jumped piece and
reports its coordinates (the piece value in the payload is not modelled). -/
def checkForCapture (board : List (List (Option CPiece))) (fromRow fromCol toRow toCol : Int) :
    List (List (Option CPiece)) × Option (Int × Int) :=
  if (toRow - fromRow).natAbs = 2 then
    let midRow := fromRow + (toRow - fromRow) / 2
    let midCol := fromCol + (toCol - fromCol) / 2
    (setCell board midRow midCol none, some (midRow, midCol))
  else (board, none)

def processCheckersMove (gs : GameState) (move : Move) (pid : PlayerId) :
    Option (GameState × MoveResult) :=
  if gs.currentPlayer ≠ pid ∨ gs.gameOver then some (gs, { valid := false })
  else
    let gs := clearTimer gs
    match gs.board with
    | .checkers grid =>
      match move.fromRow with
      | none => none  -- board[undefined][fromCol] throws
      | some fr =>
        match jsGet grid fr with
        | none => none  -- fromRow out of bounds: board[fromRow] undefined, [fromCol] throws
        | some rowF =>
          match (move.fromCol.bind (jsGet rowF)).join with
          | none => some (gs, { valid := false })  -- `!piece` (undefined or null)
          | some piece =>
            let fc := move.fromCol.getD 0  -- `some` here: a piece was read
            let playerIndex := findIndexJs gs.players (fun p => p.id == pid)
            let playerColor := if playerIndex = 0 then CColor.red else CColor.black
            if piece.color ≠ playerColor then some (gs, { valid := false })
            else
              match isValidCheckersMove grid fr fc move.toRow move.toCol playerColor piece with
              | none => none
              | some false => some (gs, { valid := false })
              | some true =>
                -- both target coordinates are `some` past the diagonal test
                let tr := (move.toRow).getD 0
                let tc := (move.toCol).getD 0
                let grid1 := setCell (setCell grid tr tc (some piece)) fr fc none
                let cap := checkForCapture grid1 fr fc tr tc
                let grid2 := cap.1
                let grid3 :=
                  if (playerColor = .red ∧ tr = 0) ∨ (playerColor = .black ∧ tr = 7) then
                    setCell grid2 tr tc (some { color := playerColor, king := true })
                  else grid2
                let opponentColor := if playerColor = .red then CColor.black else CColor.red
                let opponentPieces := grid3.flatten.filter
                  (fun cl => match cl with
                    | some q => q.color == opponentColor
                    | none => false)
                let gs1 := { gs with board := .checkers grid3, firstMoveMade := true }
                if opponentPieces.length = 0 then
                  some ({ gs1 with winner := some pid, gameOver := true },
                        { valid := true, winner := some pid })
                else
                  match otherPlayerId gs1.players pid with
                  | none => none
                  | some oid =>
                    some ({ gs1 with currentPlayer := oid },
                          { valid := true, captured := cap.2 })
    | _ => none  -- board[fromRow] on a board of another shape faults in general

/-! ## battleship -/

/-- Insertion into a descending-sorted list (the JS `sort((a, b) => b - a)`
on the ship sizes). -/
def insertDesc (x : Nat) : List Nat → List Nat
  | [] => [x]
  | y :: ys => if y ≤ x then x :: y :: ys else y :: insertDesc x ys

def sortDesc (l : List Nat) : List Nat := l.foldr insertDesc []

/-- `validateShipPlacement`: exactly 5 ships whose sizes, sorted
descending, are `[5,4,3,3,2]`. -/
def validateShipPlacement (ships : List Ship) : Bool :=
  if ships.length ≠ 5 then false
  else sortDesc (ships.map (fun s => s.positions.length)) = [5, 4, 3, 3, 2]

def processBattleshipSetup (gs : GameState) (move : Move) (pid : PlayerId) :
    Option (GameState × MoveResult) :=
  match gs.board with
  | .battleship sides =>
    match aget sides pid with
    | none => some (gs, { valid := false })  -- no board for this player id
    | some playerBoard =>
      match move.ships with
      | none => none  -- validateShipPlacement(undefined) reads `.length`: throws
      | some ships =>
        if ¬ validateShipPlacement ships then some (gs, { valid := false })
        else
          let sides1 := aset sides pid { playerBoard with ships := ships }
          let allPlayersReady := gs.players.all (fun p =>
            match aget sides1 p.id with
            | some side => decide (0 < side.ships.length)
            | none => false)
          let gs1 :=
            if allPlayersReady then
              { gs with board := .battleship sides1, phase := some "playing",
                        firstMoveMade := true }
            else { gs with board := .battleship sides1 }
          some (gs1, { valid := true, phase := gs1.phase })
  | _ => some (gs, { valid := false })
    -- gameState.board[playerId] on a non-battleship board is undefined: rejected

/-- `checkForSunkShip`: the first ship all of whose positions are hit
(`ship.sunk` is always undefined in the source, so `!ship.sunk` is true). -/
def checkForSunkShip (ships : List Ship) (shots : List (Option ShotMark)) : Option Ship :=
  ships.find? (fun ship => ship.positions.all (fun pos =>
    jsGet shots (pos.row * 10 + pos.col) == some (some ShotMark.hit)))

def processBattleshipShot (gs : GameState) (move : Move) (pid : PlayerId) :
    Option (GameState × MoveResult) :=
  if gs.currentPlayer ≠ pid ∨ gs.gameOver then some (gs, { valid := false })
  else
    let gs := clearTimer gs
    match gs.board with
    | .battleship sides =>
      match otherPlayerId gs.players pid with
      | none => none  -- players[1 - currentIndex].id throws
      | some opponentId =>
        match aget sides pid with
        | none => none  -- playerBoard undefined: `.shots` throws
        | some playerBoard =>
          let shotIndex : Option Int := match move.row, move.col with
            | some r, some c => some (r * 10 + c)
            | _, _ => none  -- NaN index reads undefined
          if shotIndex.bind (jsGet playerBoard.shots) ≠ some Option.none then
            some (gs, { valid := false })  -- repeat (or unaddressable) shot
          else
            match aget sides opponentId with
            | none => none  -- opponentBoard undefined: `.ships` throws
            | some opponentBoard =>
              let hit := opponentBoard.ships.any (fun ship =>
                ship.positions.any (fun pos =>
                  some pos.row == move.row && some pos.col == move.col))
              let mark := if hit then ShotMark.hit else ShotMark.miss
              let shots1 := jsSetU playerBoard.shots shotIndex (some mark)
              let sides1 := aset sides pid { playerBoard with shots := shots1 }
              let sunkShip := if hit then checkForSunkShip opponentBoard.ships shots1 else none
              let allSunk := hit && opponentBoard.ships.all (fun ship =>
                ship.positions.all (fun pos =>
                  jsGet shots1 (pos.row * 10 + pos.col) == some (some ShotMark.hit)))
              let gs1 := { gs with board := .battleship sides1 }
              if allSunk then
                some ({ gs1 with winner := some pid, gameOver := true },
                      { valid := true, hit := true, sunk := sunkShip, winner := some pid })
              else
                some ({ gs1 with currentPlayer := opponentId },
                      { valid := true, hit := hit, sunk := sunkShip })
    | _ => none  -- board[playerId].shots faults on a non-battleship board

def processBattleshipMove (gs : GameState) (move : Move) (pid : PlayerId) :
    Option (GameState × MoveResult) :=
  if gs.phase = some "setup" then processBattleshipSetup gs move pid
  else processBattleshipShot gs move pid

/-! ## dispatch and the makeMove socket handler -/

/-- The `processMove` switch on the client-supplied `gameType` string.
`dice` is the oracle threaded through to the only handler that draws a
random number at move time (ludo). -/
def processMove (gs : GameState) (move : Move) (pid : PlayerId) (gameType : String)
    (dice : Nat) : Option (GameState × MoveResult) :=
  if gameType = "tictactoe" then processTicTacToeMove gs move pid
  else if gameType = "connect4" then processConnect4Move gs move pid
  else if gameType = "checkers" then processCheckersMove gs move pid
  else if gameType = "battleship" then processBattleshipMove gs move pid
  else if gameType = "gomoku" then processGomokuMove gs move pid
  else if gameType = "dotsandboxes" then processDotsAndBoxesMove gs move pid
  else if gameType = "ludo" then processLudoMove gs move pid dice
  else if gameType = "minichess" then processMiniChessMove gs move pid
  else if gameType = "memorymatch" then processMemoryMatchMove gs move pid
  else if gameType = "minesweeper" then processMinesweeperMove gs move pid
  else some (gs, { valid := false })

/-- The per-game turn-timer durations wired into the `makeMove` handler's
move-result branch (`none` = no branch for this game type). -/
def makeMoveTimerDuration (gameType : String) : Option Nat :=
  if gameType = "tictactoe" then some 4
  else if gameType = "dotsandboxes" then some 5
  else if gameType = "gomoku" then some 5
  else if gameType = "minichess" then some 10
  else if gameType = "ludo" then some 6
  else if gameType = "checkers" then some 5
  else if gameType = "minesweeper" then some 5
  else if gameType = "memorymatch" then some 5
  else if gameType = "battleship" then some 8
  else none

/-- The state effects of `startTurnTimer(roomCode, duration)`: clears any
existing timeout (external), then sets `timerStarted`, `timeLeft` and the
new timeout handle.  The armed 1-second tick and the expiry callback are
real-time effects; the expiry callback's body is `skipTurn` below. -/
def startTurnTimerState (states : GSMap) (roomCode : String) (duration : Nat) : GSMap :=
  match aget states roomCode with
  | none => states
  | some gs =>
    if gs.gameOver then states
    else aset states roomCode
      { gs with timerStarted := true, timeLeft := some duration, timer := true }

/-- The `makeMove` socket handler.  Returns the updated game-state store,
the broadcast events, and `some d` when `startTurnTimer(roomCode, d)` was
invoked.  The handler mutates the stored game state in place, so the store
reflects the processor's returned state whether or not the move was valid
(the explicit `gameStates.set` on the valid path stores the same object). -/
def makeMove (states : GSMap) (roomCode : String) (move : Move) (pid : PlayerId)
    (gameType : String) (dice : Nat) : Option (GSMap × List Event × Option Nat) :=
  match aget states roomCode with
  | none => some (states, [], none)  -- no game state: silently return
  | some gs =>
    match processMove gs move pid gameType dice with
    | none => none  -- the processor threw
    | some (gs1, result) =>
      let states1 := aset states roomCode gs1
      if result.valid then
        let events := [Event.gameUpdate gs1 result]
        let timerStart :=
          if ¬ gs1.gameOver ∧ gs1.firstMoveMade then makeMoveTimerDuration gameType
          else none
        let states2 := match timerStart with
          | some d => startTurnTimerState states1 roomCode d
          | none => states1
        some (states2, events, timerStart)
      else some (states1, [], none)

/-! ## turn skipping (the timer-expiry callback) -/

/-- The duration chain at the tail of `skipTurn` — written out in the
source as a second copy of the `makeMove` chain, keyed on the stored
`gameState.gameType`. -/
def skipTurnTimerDuration (gameType : String) : Option Nat :=
  if gameType = "tictactoe" then some 4
  else if gameType = "dotsandboxes" then some 5
  else if gameType = "gomoku" then some 5
  else if gameType = "minichess" then some 10
  else if gameType = "ludo" then some 6
  else if gameType = "checkers" then some 5
  else if gameType = "minesweeper" then some 5
  else if gameType = "memorymatch" then some 5
  else if gameType = "battleship" then some 8
  else none

/-- `skipTurn(roomCode)`: the body of the expiry timeout armed by
`startTurnTimer`.  Returns the updated store, the broadcast events and the
duration of the restarted timer (if any); `none` models the TypeError when
the stored current player is not among the two snapshot players. -/
def skipTurn (states : GSMap) (roomCode : String) :
    Option (GSMap × List Event × Option Nat) :=
  match aget states roomCode with
  | none => some (states, [], none)
  | some gs =>
    if gs.gameOver then some (states, [], none)
    else
      let currentIndex := findIndexJs gs.players (fun p => p.id == gs.currentPlayer)
      match jsGet gs.players (1 - currentIndex) with
      | none => none  -- players[1 - currentIndex].id throws
      | some other =>
        let gs1 := { gs with currentPlayer := other.id, timer := false,
                             timerStarted := false }
        let states1 := aset states roomCode gs1
        let events := [Event.gameUpdate gs1 { valid := true, turnSkipped := true }]
        match skipTurnTimerDuration gs.gameType with
        | some d => some (startTurnTimerState states1 roomCode d, events, some d)
        | none => some (states1, events, none)

/-! ## room lifecycle -/

abbrev EventsOut := List Event

/-- The `createRoom` socket handler; `roomCode` is the oracle for the
`Math.random().toString(36).substring(2, 8).toUpperCase()` draw.  The code
is stored without any check that it is unused. -/
def createRoom (rooms : RoomsMap) (sid : PlayerId) (playerName : String)
    (roomCode : String) : RoomsMap × EventsOut :=
  let room : Room :=
    { code := roomCode, host := sid,
      players := [{ id := sid, name := playerName, ready := true }],
      gameSelected := none }
  (aset rooms roomCode room,
   [Event.roomCreated roomCode true, Event.playerJoined room.players roomCode])

/-- The `joinRoom` socket handler. -/
def joinRoom (rooms : RoomsMap) (sid : PlayerId) (roomCode : String)
    (playerName : String) : RoomsMap × EventsOut :=
  match aget rooms roomCode with
  | none => (rooms, [Event.errorMsg "Room not found"])
  | some room =>
    if 2 ≤ room.players.length then (rooms, [Event.errorMsg "Room is full"])
    else
      let room1 := { room with
        players := room.players ++ [{ id := sid, name := playerName, ready := true }] }
      (aset rooms roomCode room1,
       [Event.roomJoined roomCode false, Event.playerJoined room1.players roomCode])

/-- The `disconnect` handler: the loop over `rooms.entries()` that filters
the leaving player out of every room, deletes rooms that become empty
together with their game state (after `clearTimeout` on any pending timer,
an external effect), and notifies the remaining member of surviving
rooms. -/
def disconnect (rooms : RoomsMap) (gstates : GSMap) (sid : PlayerId) :
    RoomsMap × GSMap × EventsOut :=
  let updated := rooms.map (fun e =>
    (e.1, { e.2 with players := e.2.players.filter (fun p => p.id ≠ sid) }))
  let kept := updated.filter (fun e => e.2.players.length ≠ 0)
  let deletedCodes := (updated.filter (fun e => e.2.players.length = 0)).map Prod.fst
  let gstates1 := gstates.filter (fun e => ¬ deletedCodes.contains e.1)
  (kept, gstates1, kept.map (fun e => Event.playerLeft e.2.players))

/-! ## basic lemmas about the store and state helpers -/

theorem aget_aset (m : List (String × α)) (k : String) (v : α) :
    aget (aset m k v) k = some v := by
  induction m with
  | nil => simp [aget, aset]
  | cons e rest ih =>
    by_cases h : e.1 == k
    · simp [aset, h, aget, List.find?]
    · simp only [aset, h, if_false, Bool.false_eq_true]
      simpa [aget, List.find?, h] using ih

theorem mem_aset {m : List (String × α)} {k : String} {v : α} {e : String × α}
    (h : e ∈ aset m k v) : e = (k, v) ∨ e ∈ m := by
  induction m with
  | nil => simpa [aset] using h
  | cons f rest ih =>
    by_cases hf : f.1 == k
    · simp only [aset, hf, if_true] at h
      rcases List.mem_cons.mp h with h1 | h1
      · exact Or.inl h1
      · exact Or.inr (List.mem_cons_of_mem _ h1)
    · simp only [aset, hf, if_false, Bool.false_eq_true] at h
      rcases List.mem_cons.mp h with h1 | h1
      · exact Or.inr (h1 ▸ List.mem_cons_self _ _)
      · rcases ih h1 with h2 | h2
        · exact Or.inl h2
        · exact Or.inr (List.mem_cons_of_mem _ h2)

theorem clearTimer_board (gs : GameState) : (clearTimer gs).board = gs.board := by
  unfold clearTimer; split <;> rfl

theorem clearTimer_currentPlayer (gs : GameState) :
    (clearTimer gs).currentPlayer = gs.currentPlayer := by
  unfold clearTimer; split <;> rfl

theorem clearTimer_gameOver (gs : GameState) : (clearTimer gs).gameOver = gs.gameOver := by
  unfold clearTimer; split <;> rfl

theorem clearTimer_winner (gs : GameState) : (clearTimer gs).winner = gs.winner := by
  unfold clearTimer; split <;> rfl

theorem clearTimer_firstMoveMade (gs : GameState) :
    (clearTimer gs).firstMoveMade = gs.firstMoveMade := by
  unfold clearTimer; split <;> rfl

theorem clearTimer_players (gs : GameState) : (clearTimer gs).players = gs.players := by
  unfold clearTimer; split <;> rfl

/-- The two copies of the per-game duration chain (in `makeMove` and in
`skipTurn`) agree on every game type. -/
theorem timer_durations_agree (gameType : String) :
    skipTurnTimerDuration gameType = makeMoveTimerDuration gameType := rfl

/-! ## concrete fixtures used by counterexamples and witnesses -/

def pA : Player := { id := "p1", name := "Alice", ready := true }

def pB : Player := { id := "p2", name := "Bob", ready := true }

/-- A fresh game state for the given game type and board, with `pA` to move. -/
def baseGS (gt : String) (b : Board) : GameState :=
  { currentPlayer := "p1", gameType := gt, board := b, winner := none,
    gameOver := false, players := [pA, pB], timer := false,
    timerStarted := false, firstMoveMade := false, phase := none,
    timeLeft := none, draw := false }

/-- A 15×15 gomoku grid whose cell (0,0) is already occupied. -/
def gomokuGrid0 : List (List (Option Char)) :=
  jsSet (List.replicate 15 (List.replicate 15 (none : Option Char))) 0
    (jsSet (List.replicate 15 (none : Option Char)) 0 (some '●'))

/-- A gomoku game state with a live turn timer. -/
def gsGom : GameState := { baseGS "gomoku" (.gomoku gomokuGrid0) with timer := true }

def c4Grid0 : List (List (Option Char)) := List.replicate 6 (List.replicate 7 none)

/-- A finished connect4 game (winner already recorded), with the winner
still stored as `currentPlayer` exactly as the handler leaves it. -/
def gsC4over : GameState :=
  { baseGS "connect4" (.connect4 c4Grid0) with gameOver := true, winner := some "p1" }

/-- A valid battleship fleet: sizes 5, 4, 3, 3, 2. -/
def shipsOK : List Ship :=
  [ { positions := (List.range 5).map (fun i => { row := 0, col := (i : Int) }) },
    { positions := (List.range 4).map (fun i => { row := 1, col := (i : Int) }) },
    { positions := (List.range 3).map (fun i => { row := 2, col := (i : Int) }) },
    { positions := (List.range 3).map (fun i => { row := 3, col := (i : Int) }) },
    { positions := (List.range 2).map (fun i => { row := 4, col := (i : Int) }) } ]

def bsSides0 : List (PlayerId × BsSide) :=
  [("p1", { ships := [], shots := List.replicate 100 none }),
   ("p2", { ships := [], shots := List.replicate 100 none })]

/-- A battleship game in its setup phase, `p1` stored as current player. -/
def gsBS : GameState := { baseGS "battleship" (.battleship bsSides0) with phase := some "setup" }

def roomOld : Room := { code := "ABC123", host := "p9", players := [pA, pB], gameSelected := none }

/-- A 5×5 board with a single uppercase pawn at (2,2). -/
def backGrid : List (List (Option Char)) :=
  [[none, none, none, none, none],
   [none, none, none, none, none],
   [none, none, some 'P', none, none],
   [none, none, none, none, none],
   [none, none, none, none, none]]

/-- The initial 8×8 checkers board (`initializeCheckersBoard`). -/
def ckGrid0 : List (List (Option CPiece)) :=
  (List.range 8).map (fun r => (List.range 8).map (fun c =>
    if (r + c) % 2 = 1 then
      if r < 3 then some { color := CColor.black, king := false }
      else if 5 ≤ r then some { color := CColor.red, king := false }
      else none
    else none))

def gsCk : GameState := baseGS "checkers" (.checkers ckGrid0)

def ludoB0 : LudoBoard :=
  { player1 := { pieces := [0, 0], home := 0 }, player2 := { pieces := [0, 0], home := 0 },
    diceValue := 0, diceRolled := false, winner := none }

def gsLudo : GameState := baseGS "ludo" (.ludo ludoB0)

def memB0 : MemoryBoard :=
  { cards := [⟨1, false, false⟩, ⟨1, false, false⟩, ⟨2, false, false⟩, ⟨2, false, false⟩],
    flippedCards := [], scores := ⟨0, 0⟩ }

def gsMem : GameState := baseGS "memorymatch" (.memorymatch memB0)

def msBlank : MsCell := { isMine := false, isRevealed := false, neighborCount := 0, revealedBy := none }

def msB0 : MinesBoard := { board := List.replicate 8 (List.replicate 8 msBlank), scores := ⟨0, 0⟩ }

def gsMs : GameState := baseGS "minesweeper" (.minesweeper msB0)

def gsTtt : GameState :=
  { baseGS "tictactoe" (.tictactoe (List.replicate 9 none)) with timer := true, timerStarted := true }

/-! ## Claim C7 -/

/-- Claim C7 (code bug): the spec says a minichess pawn advances one step
toward the opposing side's back rank.  In the code the pawn direction is
inverted: on the initial board the uppercase pawn at (3,0) may not step to
the empty square (2,0) toward the lowercase side, while an uppercase pawn
is allowed to step from (2,2) to (3,2), toward its own back rank, and is
refused the step toward the enemy from (2,2) to (1,2). -/
theorem c7_pawn_direction_bug :
    isValidChessMove miniChessInit 3 0 2 0 = false ∧
    isValidChessMove backGrid 2 2 3 2 = true ∧
    isValidChessMove backGrid 2 2 1 2 = false := by decide

/-! ## Claim C5 -/

/-- Claim C5 counterexample: `createRoom` draws the room code without any
in-use check, so a colliding draw silently overwrites the existing room
(here the pre-existing room "ABC123" is replaced). -/
theorem c5_counterexample :
    aget [("ABC123", roomOld)] "ABC123" = some roomOld ∧
    aget (createRoom [("ABC123", roomOld)] "s2" "Bob" "ABC123").1 "ABC123" ≠ some roomOld := by
  decide

/-- Claim C5 (amended): `createRoom` always succeeds and stores, under the
drawn code, a room whose host is the creator and whose player list is
exactly one ready player carrying the creator's connection id — but the
drawn code is not checked against the rooms in use, so a collision
overwrites an existing room (see the counterexample). -/
theorem c5_createRoom_amended (rooms : RoomsMap) (sid : PlayerId)
    (playerName : String) (roomCode : String) :
    aget (createRoom rooms sid playerName roomCode).1 roomCode =
      some { code := roomCode, host := sid,
             players := [{ id := sid, name := playerName, ready := true }],
             gameSelected := none } ∧
    (createRoom rooms sid playerName roomCode).2 =
      [Event.roomCreated roomCode true,
       Event.playerJoined [{ id := sid, name := playerName, ready := true }] roomCode] := by
  exact ⟨aget_aset rooms roomCode _, rfl⟩

/-! ## Claim C2 -/

/-- Claim C2 counterexample: in battleship's setup phase the handler never
consults `currentPlayer`, so the non-current player `p2` submits a fleet
and gets `valid:true` (with the store mutated), contradicting the claim
that a wrong-player move is rejected for battleship in both phases. -/
theorem c2_counterexample :
    gsBS.currentPlayer ≠ "p2" ∧ gsBS.phase = some "setup" ∧
    (processMove gsBS { ships := some shipsOK } "p2" "battleship" 1).map
      (fun r => r.2.valid) = some true := by decide

theorem wrongPlayer_ttt (gs : GameState) (move : Move) (pid : PlayerId)
    (hne : gs.currentPlayer ≠ pid) :
    processTicTacToeMove gs move pid = some (gs, { valid := false }) := by
  unfold processTicTacToeMove
  rw [if_pos hne]

theorem wrongPlayer_c4 (gs : GameState) (move : Move) (pid : PlayerId)
    (hne : gs.currentPlayer ≠ pid) :
    processConnect4Move gs move pid = some (gs, { valid := false }) := by
  unfold processConnect4Move
  rw [if_pos hne]

theorem wrongPlayer_checkers (gs : GameState) (move : Move) (pid : PlayerId)
    (hne : gs.currentPlayer ≠ pid) :
    processCheckersMove gs move pid = some (gs, { valid := false }) := by
  unfold processCheckersMove
  rw [if_pos (Or.inl hne)]

theorem wrongPlayer_gomoku (gs : GameState) (move : Move) (pid : PlayerId)
    (hne : gs.currentPlayer ≠ pid) :
    processGomokuMove gs move pid = some (gs, { valid := false }) := by
  unfold processGomokuMove
  rw [if_pos (Or.inl hne)]

theorem wrongPlayer_dnb (gs : GameState) (move : Move) (pid : PlayerId)
    (hne : gs.currentPlayer ≠ pid) :
    processDotsAndBoxesMove gs move pid = some (gs, { valid := false }) := by
  unfold processDotsAndBoxesMove
  rw [if_pos (Or.inl hne)]

theorem wrongPlayer_ludo (gs : GameState) (move : Move) (pid : PlayerId) (dice : Nat)
    (hne : gs.currentPlayer ≠ pid) :
    processLudoMove gs move pid dice = some (gs, { valid := false }) := by
  unfold processLudoMove
  rw [if_pos (Or.inl hne)]

theorem wrongPlayer_chess (gs : GameState) (move : Move) (pid : PlayerId)
    (hne : gs.currentPlayer ≠ pid) :
    processMiniChessMove gs move pid = some (gs, { valid := false }) := by
  unfold processMiniChessMove
  rw [if_pos (Or.inl hne)]

theorem wrongPlayer_memory (gs : GameState) (move : Move) (pid : PlayerId)
    (hne : gs.currentPlayer ≠ pid) :
    processMemoryMatchMove gs move pid = some (gs, { valid := false }) := by
  unfold processMemoryMatchMove
  rw [if_pos (Or.inl hne)]

theorem wrongPlayer_mines (gs : GameState) (move : Move) (pid : PlayerId)
    (hne : gs.currentPlayer ≠ pid) :
    processMinesweeperMove gs move pid = some (gs, { valid := false }) := by
  unfold processMinesweeperMove
  rw [if_pos (Or.inl hne)]

theorem wrongPlayer_bs (gs : GameState) (move : Move) (pid : PlayerId)
    (hne : gs.currentPlayer ≠ pid) (hns : gs.phase ≠ some "setup") :
    processBattleshipMove gs move pid = some (gs, { valid := false }) := by
  unfold processBattleshipMove
  rw [if_neg hns]
  unfold processBattleshipShot
  rw [if_pos (Or.inl hne)]

/-- Claim C2 (amended): for every game type and every game state, a move by
a player other than `currentPlayer` returns `valid:false` with the game
state unchanged — except battleship in its setup phase, whose handler
ignores `currentPlayer` entirely (see the counterexample). -/
theorem c2_wrong_player_rejected (gs : GameState) (move : Move) (pid : PlayerId)
    (gameType : String) (dice : Nat)
    (hne : gs.currentPlayer ≠ pid)
    (hbs : ¬ (gameType = "battleship" ∧ gs.phase = some "setup")) :
    processMove gs move pid gameType dice = some (gs, { valid := false }) := by
  unfold processMove
  by_cases h1 : gameType = "tictactoe"
  · rw [if_pos h1]; exact wrongPlayer_ttt gs move pid hne
  · rw [if_neg h1]
    by_cases h2 : gameType = "connect4"
    · rw [if_pos h2]; exact wrongPlayer_c4 gs move pid hne
    · rw [if_neg h2]
      by_cases h3 : gameType = "checkers"
      · rw [if_pos h3]; exact wrongPlayer_checkers gs move pid hne
      · rw [if_neg h3]
        by_cases h4 : gameType = "battleship"
        · rw [if_pos h4]
          exact wrongPlayer_bs gs move pid hne (fun hp => hbs ⟨h4, hp⟩)
        · rw [if_neg h4]
          by_cases h5 : gameType = "gomoku"
          · rw [if_pos h5]; exact wrongPlayer_gomoku gs move pid hne
          · rw [if_neg h5]
            by_cases h6 : gameType = "dotsandboxes"
            · rw [if_pos h6]; exact wrongPlayer_dnb gs move pid hne
            · rw [if_neg h6]
              by_cases h7 : gameType = "ludo"
              · rw [if_pos h7]; exact wrongPlayer_ludo gs move pid dice hne
              · rw [if_neg h7]
                by_cases h8 : gameType = "minichess"
                · rw [if_pos h8]; exact wrongPlayer_chess gs move pid hne
                · rw [if_neg h8]
                  by_cases h9 : gameType = "memorymatch"
                  · rw [if_pos h9]; exact wrongPlayer_memory gs move pid hne
                  · rw [if_neg h9]
                    by_cases h10 : gameType = "minesweeper"
                    · rw [if_pos h10]; exact wrongPlayer_mines gs move pid hne
                    · rw [if_neg h10]

/-- Claim C2 witness: the wrong-player rejection applied to a concrete
gomoku state. -/
theorem c2_witness :
    gsGom.currentPlayer ≠ "zz" ∧
    processMove gsGom ({} : Move) "zz" "gomoku" 1 = some (gsGom, { valid := false }) :=
  ⟨by decide,
   c2_wrong_player_rejected gsGom ({} : Move) "zz" "gomoku" 1 (by decide) (by decide)⟩

/-! ## Claim C3 -/

/-- Claim C3 counterexample: `processConnect4Move` has no game-over check;
with the game already over (and the winner still recorded as
`currentPlayer`, exactly as a winning move leaves the state) a further
drop in column 0 is accepted with `valid:true` and mutates the state. -/
theorem c3_counterexample :
    gsC4over.gameOver = true ∧
    (processConnect4Move gsC4over { column := some 0 } "p1").map
      (fun r => (r.2.valid, r.1.currentPlayer)) = some (true, "p2") := by decide

def gsMsOver : GameState := { gsMs with gameOver := true }

theorem jsGet_oob {l : List α} {i : Int} (h : i < 0 ∨ (l.length : Int) ≤ i) :
    jsGet l i = none := by
  unfold jsGet
  rcases h with h | h
  · rw [if_neg (by omega)]
  · rw [if_pos (by omega)]
    exact List.get?_eq_none.mpr (by omega)

/-- Any minesweeper move with a present coordinate outside the 8×8 board
faults: an out-of-range row makes `board[row][col]` throw, an out-of-range
column reads an undefined cell and `.isRevealed` throws. -/
theorem msMove_oob_fault (gs : GameState) (m : MinesBoard) (move : Move) (pid : PlayerId)
    (r c : Int)
    (hcur : gs.currentPlayer = pid) (hover : gs.gameOver = false)
    (hb : gs.board = .minesweeper m)
    (hrow : move.row = some r) (hcol : move.col = some c)
    (hlen : m.board.length = 8) (hrows : ∀ rowL ∈ m.board, rowL.length = 8)
    (hoob : r < 0 ∨ 8 ≤ r ∨ c < 0 ∨ 8 ≤ c) :
    processMinesweeperMove gs move pid = none := by
  have hguard : ¬ (gs.currentPlayer ≠ pid ∨ gs.gameOver = true) := by simp [hcur, hover]
  simp only [processMinesweeperMove]
  rw [if_neg hguard]
  simp only [clearTimer_board, hb, hrow]
  by_cases hr : r < 0 ∨ (8 : Int) ≤ r
  · rcases hr with h | h
    · rw [jsGet_oob (Or.inl h)]
    · rw [jsGet_oob (Or.inr (by omega))]
  · push_neg at hr
    obtain ⟨hr0, hr8⟩ := hr
    have hc : c < 0 ∨ (8 : Int) ≤ c := by
      rcases hoob with h | h | h | h
      · omega
      · omega
      · exact Or.inl h
      · exact Or.inr h
    cases hjg : jsGet m.board r with
    | none =>
      exfalso
      unfold jsGet at hjg
      rw [if_pos (by omega)] at hjg
      rw [List.get?_eq_none] at hjg
      omega
    | some rowL =>
      dsimp only
      rw [hcol]
      have hmem : rowL ∈ m.board := by
        unfold jsGet at hjg
        rw [if_pos (by omega)] at hjg
        exact List.get?_mem hjg
      have hrl := hrows rowL hmem
      dsimp only [Option.bind]
      rw [jsGet_oob (by rw [hrl]; exact hc)]

/-- A checkers move whose `fromRow` is outside the grid faults:
`board[fromRow]` is undefined and `[fromCol]` throws. -/
theorem ckMove_fromRow_fault (gs : GameState) (grid : List (List (Option CPiece)))
    (move : Move) (pid : PlayerId) (fr : Int)
    (hcur : gs.currentPlayer = pid) (hover : gs.gameOver = false)
    (hb : gs.board = .checkers grid)
    (hfr : move.fromRow = some fr)
    (hoob : fr < 0 ∨ (grid.length : Int) ≤ fr) :
    processCheckersMove gs move pid = none := by
  have hguard : ¬ (gs.currentPlayer ≠ pid ∨ gs.gameOver = true) := by simp [hcur, hover]
  simp only [processCheckersMove]
  rw [if_neg hguard]
  simp only [clearTimer_board, hb, hfr]
  rw [jsGet_oob hoob]

/-- A checkers move with `fromRow` in bounds but `fromCol` out of bounds
does NOT fault: the piece read is undefined and `!piece` rejects the move
normally (with the pending timer already cleared). -/
theorem ckMove_fromCol_reject (gs : GameState) (grid : List (List (Option CPiece)))
    (move : Move) (pid : PlayerId) (fr fc : Int) (rowF : List (Option CPiece))
    (hcur : gs.currentPlayer = pid) (hover : gs.gameOver = false)
    (hb : gs.board = .checkers grid)
    (hfr : move.fromRow = some fr) (hrowF : jsGet grid fr = some rowF)
    (hfc : move.fromCol = some fc)
    (hoob : fc < 0 ∨ (rowF.length : Int) ≤ fc) :
    processCheckersMove gs move pid = some (clearTimer gs, { valid := false }) := by
  have hguard : ¬ (gs.currentPlayer ≠ pid ∨ gs.gameOver = true) := by simp [hcur, hover]
  simp only [processCheckersMove]
  rw [if_neg hguard]
  simp only [clearTimer_board, hb, hfr]
  rw [hrowF]
  dsimp only
  rw [hfc]
  dsimp only [Option.bind]
  rw [jsGet_oob hoob]
  rfl

/-- A diagonally-shaped checkers move of the acting player's own piece
whose `toRow` is outside the grid faults: `board[toRow][toCol]` throws
inside `isValidCheckersMove`. -/
theorem ckMove_toRow_fault (gs : GameState) (grid : List (List (Option CPiece)))
    (move : Move) (pid : PlayerId) (fr fc tr tc : Int)
    (rowF : List (Option CPiece)) (piece : CPiece)
    (hcur : gs.currentPlayer = pid) (hover : gs.gameOver = false)
    (hb : gs.board = .checkers grid)
    (hfr : move.fromRow = some fr) (hrowF : jsGet grid fr = some rowF)
    (hfc : move.fromCol = some fc)
    (hpieceC : (jsGet rowF fc).join = some piece)
    (hcolor : piece.color =
      (if findIndexJs gs.players (fun p => p.id == pid) = 0 then CColor.red else CColor.black))
    (htr : move.toRow = some tr) (htc : move.toCol = some tc)
    (hdiag : (tr - fr).natAbs = (tc - fc).natAbs)
    (hoob : tr < 0 ∨ (grid.length : Int) ≤ tr) :
    processCheckersMove gs move pid = none := by
  have hguard : ¬ (gs.currentPlayer ≠ pid ∨ gs.gameOver = true) := by simp [hcur, hover]
  have hval : isValidCheckersMove grid fr fc (some tr) (some tc)
      (if findIndexJs gs.players (fun p => p.id == pid) = 0 then CColor.red else CColor.black)
      piece = none := by
    unfold isValidCheckersMove
    dsimp only
    rw [if_neg (not_not_intro hdiag)]
    rw [jsGet_oob hoob]
  simp only [processCheckersMove]
  rw [if_neg hguard]
  simp only [clearTimer_players, clearTimer_board, hb, hfr]
  rw [hrowF]
  dsimp only
  rw [hfc]
  dsimp only [Option.bind]
  rw [hpieceC]
  dsimp only
  rw [if_neg (not_not_intro hcolor)]
  rw [htr, htc]
  dsimp only [Option.getD]
  rw [hval]

/-- A checkers move of the acting player's own piece with `toRow` in
bounds but `toCol` out of bounds does NOT fault: the undefined target
fails the `!== null` emptiness test (or the NaN-free diagonal test) inside
`isValidCheckersMove` and the move is rejected normally. -/
theorem ckMove_toCol_reject (gs : GameState) (grid : List (List (Option CPiece)))
    (move : Move) (pid : PlayerId) (fr fc tr tc : Int)
    (rowF rowT : List (Option CPiece)) (piece : CPiece)
    (hcur : gs.currentPlayer = pid) (hover : gs.gameOver = false)
    (hb : gs.board = .checkers grid)
    (hfr : move.fromRow = some fr) (hrowF : jsGet grid fr = some rowF)
    (hfc : move.fromCol = some fc)
    (hpieceC : (jsGet rowF fc).join = some piece)
    (hcolor : piece.color =
      (if findIndexJs gs.players (fun p => p.id == pid) = 0 then CColor.red else CColor.black))
    (htr : move.toRow = some tr) (htc : move.toCol = some tc)
    (hrowT : jsGet grid tr = some rowT)
    (hoob : tc < 0 ∨ (rowT.length : Int) ≤ tc) :
    processCheckersMove gs move pid = some (clearTimer gs, { valid := false }) := by
  have hguard : ¬ (gs.currentPlayer ≠ pid ∨ gs.gameOver = true) := by simp [hcur, hover]
  have hval : isValidCheckersMove grid fr fc (some tr) (some tc)
      (if findIndexJs gs.players (fun p => p.id == pid) = 0 then CColor.red else CColor.black)
      piece = some false := by
    unfold isValidCheckersMove
    dsimp only
    by_cases hdiag : (tr - fr).natAbs ≠ (tc - fc).natAbs
    · rw [if_pos hdiag]
    · rw [if_neg hdiag]
      rw [hrowT]
      dsimp only
      rw [jsGet_oob hoob]
      rw [if_pos (by simp)]
  simp only [processCheckersMove]
  rw [if_neg hguard]
  simp only [clearTimer_players, clearTimer_board, hb, hfr]
  rw [hrowF]
  dsimp only
  rw [hfc]
  dsimp only [Option.bind]
  rw [hpieceC]
  dsimp only
  rw [if_neg (not_not_intro hcolor)]
  rw [htr, htc]
  dsimp only [Option.getD]
  rw [hval]

/-- Claim C3 (amended): minesweeper, checkers and gomoku reject a move with
`valid:false` and the state unchanged when the game is already over, but
connect4 has no game-over check and accepts a post-game move from the
player left recorded as `currentPlayer` (see the counterexample).
Minesweeper and checkers have no bounds checks; instead of being rejected,
an out-of-bounds coordinate behaves as the undefined JS read dictates:
every minesweeper move with a present row or column outside the 8×8 board
faults (the modelled TypeError, `none`); a checkers move faults when
`fromRow` is out of the grid, or when `toRow` is out of the grid on a
diagonally-shaped move of the acting player's own piece, while an
out-of-bounds `fromCol` (undefined piece) or an out-of-bounds `toCol` with
`toRow` in bounds (undefined target fails the emptiness test) is rejected
with `valid:false` without faulting. -/
theorem c3_game_over_and_bounds :
    (∀ gs move pid, gs.gameOver = true →
       processMinesweeperMove gs move pid = some (gs, { valid := false }) ∧
       processCheckersMove gs move pid = some (gs, { valid := false }) ∧
       processGomokuMove gs move pid = some (gs, { valid := false })) ∧
    (∀ gs m move pid r c,
       gs.currentPlayer = pid → gs.gameOver = false →
       gs.board = .minesweeper m →
       move.row = some r → move.col = some c →
       m.board.length = 8 → (∀ rowL ∈ m.board, rowL.length = 8) →
       (r < 0 ∨ 8 ≤ r ∨ c < 0 ∨ 8 ≤ c) →
       processMinesweeperMove gs move pid = none) ∧
    (∀ gs grid move pid fr,
       gs.currentPlayer = pid → gs.gameOver = false →
       gs.board = .checkers grid →
       move.fromRow = some fr → (fr < 0 ∨ (grid.length : Int) ≤ fr) →
       processCheckersMove gs move pid = none) ∧
    (∀ gs grid move pid fr fc rowF,
       gs.currentPlayer = pid → gs.gameOver = false →
       gs.board = .checkers grid →
       move.fromRow = some fr → jsGet grid fr = some rowF →
       move.fromCol = some fc → (fc < 0 ∨ (rowF.length : Int) ≤ fc) →
       processCheckersMove gs move pid = some (clearTimer gs, { valid := false })) ∧
    (∀ gs grid move pid fr fc tr tc rowF piece,
       gs.currentPlayer = pid → gs.gameOver = false →
       gs.board = .checkers grid →
       move.fromRow = some fr → jsGet grid fr = some rowF →
       move.fromCol = some fc → (jsGet rowF fc).join = some piece →
       piece.color =
         (if findIndexJs gs.players (fun p => p.id == pid) = 0 then CColor.red
          else CColor.black) →
       move.toRow = some tr → move.toCol = some tc →
       (tr - fr).natAbs = (tc - fc).natAbs →
       (tr < 0 ∨ (grid.length : Int) ≤ tr) →
       processCheckersMove gs move pid = none) ∧
    (∀ gs grid move pid fr fc tr tc rowF rowT piece,
       gs.currentPlayer = pid → gs.gameOver = false →
       gs.board = .checkers grid →
       move.fromRow = some fr → jsGet grid fr = some rowF →
       move.fromCol = some fc → (jsGet rowF fc).join = some piece →
       piece.color =
         (if findIndexJs gs.players (fun p => p.id == pid) = 0 then CColor.red
          else CColor.black) →
       move.toRow = some tr → move.toCol = some tc →
       jsGet grid tr = some rowT → (tc < 0 ∨ (rowT.length : Int) ≤ tc) →
       processCheckersMove gs move pid = some (clearTimer gs, { valid := false })) := by
  refine ⟨?_, ?_, ?_, ?_, ?_, ?_⟩
  · intro gs move pid hover
    refine ⟨?_, ?_, ?_⟩
    · unfold processMinesweeperMove; rw [if_pos (Or.inr hover)]
    · unfold processCheckersMove; rw [if_pos (Or.inr hover)]
    · unfold processGomokuMove; rw [if_pos (Or.inr hover)]
  · intro gs m move pid r c hcur hover hb hrow hcol hlen hrows hoob
    exact msMove_oob_fault gs m move pid r c hcur hover hb hrow hcol hlen hrows hoob
  · intro gs grid move pid fr hcur hover hb hfr hoob
    exact ckMove_fromRow_fault gs grid move pid fr hcur hover hb hfr hoob
  · intro gs grid move pid fr fc rowF hcur hover hb hfr hrowF hfc hoob
    exact ckMove_fromCol_reject gs grid move pid fr fc rowF hcur hover hb hfr hrowF hfc hoob
  · intro gs grid move pid fr fc tr tc rowF piece hcur hover hb hfr hrowF hfc hpieceC
      hcolor htr htc hdiag hoob
    exact ckMove_toRow_fault gs grid move pid fr fc tr tc rowF piece hcur hover hb hfr
      hrowF hfc hpieceC hcolor htr htc hdiag hoob
  · intro gs grid move pid fr fc tr tc rowF rowT piece hcur hover hb hfr hrowF hfc
      hpieceC hcolor htr htc hrowT hoob
    exact ckMove_toCol_reject gs grid move pid fr fc tr tc rowF rowT piece hcur hover hb
      hfr hrowF hfc hpieceC hcolor htr htc hrowT hoob

/-- Row 5 of the initial checkers board: red men on even columns. -/
def ckRow5 : List (Option CPiece) :=
  [some { color := CColor.red, king := false }, none,
   some { color := CColor.red, king := false }, none,
   some { color := CColor.red, king := false }, none,
   some { color := CColor.red, king := false }, none]

/-- Row 4 of the initial checkers board: empty. -/
def ckRow4 : List (Option CPiece) :=
  [none, none, none, none, none, none, none, none]

/-- Claim C3 witness: the game-over rejection at a finished minesweeper
state; the fault at minesweeper row 8; the checkers fault at fromRow 8 and
at the diagonal jump from (5,0) to the out-of-bounds (-1,6); and the clean
rejections at fromCol 8 and at toCol -1 with toRow 4 in bounds. -/
theorem c3_witness :
    (processMinesweeperMove gsMsOver ({} : Move) "p1" = some (gsMsOver, { valid := false })) ∧
    processMinesweeperMove gsMs { row := some 8, col := some 0 } "p1" = none ∧
    processCheckersMove gsCk { fromRow := some 8, fromCol := some 0 } "p1" = none ∧
    processCheckersMove gsCk { fromRow := some 5, fromCol := some 8 } "p1" =
      some (clearTimer gsCk, { valid := false }) ∧
    processCheckersMove gsCk
      { fromRow := some 5, fromCol := some 0, toRow := some (-1), toCol := some 6 } "p1" =
      none ∧
    processCheckersMove gsCk
      { fromRow := some 5, fromCol := some 0, toRow := some 4, toCol := some (-1) } "p1" =
      some (clearTimer gsCk, { valid := false }) :=
  ⟨(c3_game_over_and_bounds.1 gsMsOver ({} : Move) "p1" (by decide)).1,
   c3_game_over_and_bounds.2.1 gsMs msB0 { row := some 8, col := some 0 } "p1" 8 0
     (by decide) (by decide) (by decide) (by decide) (by decide) (by decide)
     (by decide) (by decide),
   c3_game_over_and_bounds.2.2.1 gsCk ckGrid0 { fromRow := some 8, fromCol := some 0 }
     "p1" 8 (by decide) (by decide) (by decide) (by decide) (by decide),
   c3_game_over_and_bounds.2.2.2.1 gsCk ckGrid0 { fromRow := some 5, fromCol := some 8 }
     "p1" 5 8 ckRow5 (by decide) (by decide) (by decide) (by decide) (by decide)
     (by decide) (by decide),
   c3_game_over_and_bounds.2.2.2.2.1 gsCk ckGrid0
     { fromRow := some 5, fromCol := some 0, toRow := some (-1), toCol := some 6 }
     "p1" 5 0 (-1) 6 ckRow5 { color := CColor.red, king := false }
     (by decide) (by decide) (by decide) (by decide) (by decide) (by decide)
     (by decide) (by decide) (by decide) (by decide) (by decide) (by decide),
   c3_game_over_and_bounds.2.2.2.2.2 gsCk ckGrid0
     { fromRow := some 5, fromCol := some 0, toRow := some 4, toCol := some (-1) }
     "p1" 5 0 4 (-1) ckRow5 ckRow4 { color := CColor.red, king := false }
     (by decide) (by decide) (by decide) (by decide) (by decide) (by decide)
     (by decide) (by decide) (by decide) (by decide) (by decide) (by decide)⟩

/-! ## Claim C1 -/

/-- Claim C1 counterexample: with a gomoku game state holding a live timer,
the current player's move onto the occupied cell (0,0) is rejected
(`valid:false`), yet `makeMove` broadcasts nothing at all (the claim says a
`gameUpdate` is broadcast on any outcome) and the rejection has cleared the
stored timer (the claim says a rejection never cancels a running timer). -/
theorem c1_counterexample :
    gsGom.timer = true ∧
    (processMove gsGom { index := some 0 } "p1" "gomoku" 1).map (fun r => r.2.valid) =
      some false ∧
    (makeMove [("R", gsGom)] "R" { index := some 0 } "p1" "gomoku" 1).map
      (fun out => (out.2.1, out.2.2, (aget out.1 "R").map GameState.timer)) =
      some (([] : List Event), (none : Option Nat), some false) := by decide

/-- Claim C1 (amended): `makeMove` broadcasts the `gameUpdate` payload
(carrying the game state and the valid flag) exactly on accepted moves; a
rejected move produces no broadcast and no timer start, storing the
handler's returned state; and a gomoku rejection leaves the board, turn,
outcome and first-move fields unchanged — though a rejection that passes
the turn/game-over gate has already cleared a pending timer. -/
theorem c1_broadcast_only_on_valid :
    (∀ states roomCode move pid gameType dice gs gs1 res,
       aget states roomCode = some gs →
       processMove gs move pid gameType dice = some (gs1, res) →
       res.valid = false →
       makeMove states roomCode move pid gameType dice =
         some (aset states roomCode gs1, [], none)) ∧
    (∀ states roomCode move pid gameType dice gs gs1 res,
       aget states roomCode = some gs →
       processMove gs move pid gameType dice = some (gs1, res) →
       res.valid = true →
       (makeMove states roomCode move pid gameType dice).map (fun out => out.2.1) =
         some [Event.gameUpdate gs1 res]) ∧
    (∀ gs move pid gs1 res,
       processGomokuMove gs move pid = some (gs1, res) → res.valid = false →
       gs1.board = gs.board ∧ gs1.currentPlayer = gs.currentPlayer ∧
       gs1.gameOver = gs.gameOver ∧ gs1.winner = gs.winner ∧
       gs1.firstMoveMade = gs.firstMoveMade) := by
  refine ⟨?_, ?_, ?_⟩
  · intro states roomCode move pid gameType dice gs gs1 res hget hproc hval
    unfold makeMove
    rw [hget]
    dsimp only
    rw [hproc]
    simp [hval]
  · intro states roomCode move pid gameType dice gs gs1 res hget hproc hval
    unfold makeMove
    rw [hget]
    dsimp only
    rw [hproc]
    simp only [hval, if_true]
    split <;> simp
  · intro gs move pid gs1 res h hval
    by_cases hguard : gs.currentPlayer ≠ pid ∨ gs.gameOver
    · unfold processGomokuMove at h
      rw [if_pos hguard] at h
      simp only [Option.some.injEq, Prod.mk.injEq] at h
      obtain ⟨rfl, rfl⟩ := h
      exact ⟨rfl, rfl, rfl, rfl, rfl⟩
    · unfold processGomokuMove at h
      rw [if_neg hguard] at h
      dsimp only at h
      split at h
      all_goals try exact Option.noConfusion h
      split at h
      all_goals try exact Option.noConfusion h
      split at h
      all_goals try exact Option.noConfusion h
      split at h
      · -- occupied-cell rejection on the timer-cleared state
        simp only [Option.some.injEq, Prod.mk.injEq] at h
        obtain ⟨rfl, rfl⟩ := h
        exact ⟨clearTimer_board gs, clearTimer_currentPlayer gs,
               clearTimer_gameOver gs, clearTimer_winner gs,
               clearTimer_firstMoveMade gs⟩
      · -- every accepting branch returns valid := true, contradicting hval
        repeat' (first | (exact Option.noConfusion h) | split at h)
        all_goals simp only [Option.some.injEq, Prod.mk.injEq] at h
        all_goals obtain ⟨rfl, rfl⟩ := h
        all_goals simp at hval

def gsGomCleared : GameState := { gsGom with timer := false }

/-- Claim C1 witness: the no-broadcast/no-timer conclusion applied to the
concrete rejected gomoku move of the counterexample. -/
theorem c1_witness :
    aget [("R", gsGom)] "R" = some gsGom ∧
    processMove gsGom { index := some 0 } "p1" "gomoku" 1 =
      some (gsGomCleared, { valid := false }) ∧
    makeMove [("R", gsGom)] "R" { index := some 0 } "p1" "gomoku" 1 =
      some (aset [("R", gsGom)] "R" gsGomCleared, [], none) :=
  ⟨by decide, by decide,
   c1_broadcast_only_on_valid.1 [("R", gsGom)] "R" { index := some 0 } "p1" "gomoku" 1
     gsGom gsGomCleared { valid := false } (by decide) (by decide) (by decide)⟩

/-! ## Claim C4 -/

/-- The state `skipTurn` stores before restarting the timer: the turn
switched to the other snapshot player, the timer fields cleared. -/
def skipState (gs : GameState) (p q : Player) : GameState :=
  { gs with currentPlayer := if gs.currentPlayer = p.id then q.id else p.id,
            timer := false, timerStarted := false }

/-- Claim C4: when the timer armed for a game type with duration `d` (the
`makeMove` wiring) expires on a two-player game that is not over, the
expiry callback `skipTurn` performs exactly one turn switch — the stored
state is the old one with `currentPlayer` swapped to the other snapshot
player and the timer fields cleared — broadcasts exactly one `gameUpdate`
carrying that full state with `turnSkipped`, and restarts a timer whose
duration is again this game type's fixed duration, the same `d` (the
duration chain in `skipTurn` agrees with the one in `makeMove`), leaving
`timerStarted` set and `timeLeft = d`. -/
theorem c4_timer_expiry (states : GSMap) (roomCode : String) (gs : GameState)
    (p q : Player) (d : Nat)
    (hget : aget states roomCode = some gs)
    (hover : gs.gameOver = false)
    (hplayers : gs.players = [p, q])
    (hdur : makeMoveTimerDuration gs.gameType = some d)
    (hcur : gs.currentPlayer = p.id ∨ (gs.currentPlayer = q.id ∧ p.id ≠ q.id)) :
    skipTurn states roomCode =
      some (startTurnTimerState (aset states roomCode (skipState gs p q)) roomCode d,
            [Event.gameUpdate (skipState gs p q) { valid := true, turnSkipped := true }],
            some d) ∧
    aget (startTurnTimerState (aset states roomCode (skipState gs p q)) roomCode d) roomCode =
      some { skipState gs p q with timerStarted := true, timeLeft := some d, timer := true } := by
  have hother : jsGet gs.players (1 - findIndexJs gs.players (fun x => x.id == gs.currentPlayer)) =
      some (if gs.currentPlayer = p.id then q else p) := by
    rcases hcur with h | ⟨h, hne⟩
    · rw [hplayers, h]
      simp [findIndexJs, List.findIdx?_cons, jsGet]
    · rw [hplayers, h]
      have hpq : (p.id == q.id) = false := by
        simp only [beq_eq_false_iff_ne, ne_eq]
        exact hne
      by_cases hqp : q.id = p.id
      · exact absurd hqp.symm hne
      · simp [findIndexJs, List.findIdx?_cons, jsGet, hpq, hqp]
  have hid : (if gs.currentPlayer = p.id then q else p).id =
      (if gs.currentPlayer = p.id then q.id else p.id) := by split <;> rfl
  have hskip : skipTurn states roomCode =
      some (startTurnTimerState (aset states roomCode (skipState gs p q)) roomCode d,
            [Event.gameUpdate (skipState gs p q) { valid := true, turnSkipped := true }],
            some d) := by
    unfold skipTurn
    rw [hget]
    dsimp only
    rw [if_neg (by simp [hover])]
    rw [hother]
    dsimp only
    rw [timer_durations_agree, hdur]
    dsimp only
    rw [hid]
    rfl
  refine ⟨hskip, ?_⟩
  have hgo : (skipState gs p q).gameOver = false := hover
  unfold startTurnTimerState
  rw [aget_aset]
  dsimp only
  rw [if_neg (by simp [hgo])]
  rw [aget_aset]

/-- Claim C4 witness: expiry of the 4-second tictactoe timer on a concrete
two-player game. -/
theorem c4_witness :
    makeMoveTimerDuration gsTtt.gameType = some 4 ∧
    skipTurn [("R", gsTtt)] "R" =
      some (startTurnTimerState (aset [("R", gsTtt)] "R" (skipState gsTtt pA pB)) "R" 4,
            [Event.gameUpdate (skipState gsTtt pA pB) { valid := true, turnSkipped := true }],
            some 4) :=
  ⟨by decide,
   (c4_timer_expiry [("R", gsTtt)] "R" gsTtt pA pB 4 (by decide) (by decide) (by decide)
      (by decide) (Or.inl (by decide))).1⟩

/-! ## Claim C6 -/

def playersBound (rooms : RoomsMap) : Prop :=
  ∀ e ∈ rooms, e.2.players.length ≤ 2

theorem key_unique {α : Type} {m : List (String × α)} (hnd : (m.map Prod.fst).Nodup)
    {e f : String × α} (he : e ∈ m) (hf : f ∈ m) (hk : e.1 = f.1) : e = f := by
  induction m with
  | nil => cases he
  | cons g rest ih =>
    simp only [List.map_cons, List.nodup_cons] at hnd
    rcases List.mem_cons.mp he with rfl | he'
    · rcases List.mem_cons.mp hf with rfl | hf'
      · rfl
      · exact absurd (hk ▸ List.mem_map_of_mem Prod.fst hf') hnd.1
    · rcases List.mem_cons.mp hf with rfl | hf'
      · exact absurd (hk ▸ List.mem_map_of_mem Prod.fst he') hnd.1
      · exact ih hnd.2 he' hf'

theorem mem_of_aget {α : Type} {m : List (String × α)} {k : String} {v : α}
    (h : aget m k = some v) : (k, v) ∈ m := by
  unfold aget at h
  cases hf : m.find? (fun e => e.1 == k) with
  | none => rw [hf] at h; exact Option.noConfusion h
  | some e =>
    rw [hf] at h
    have hp := List.find?_some hf
    have hm := List.mem_of_find?_eq_some hf
    have hk : e.1 = k := by simpa using hp
    have hv : e.2 = v := by simpa using h
    have he : e = (k, v) := Prod.ext hk hv
    rwa [← he]

theorem aget_eq_none {α : Type} {m : List (String × α)} {k : String}
    (h : ∀ e ∈ m, e.1 ≠ k) : aget m k = none := by
  unfold aget
  rw [List.find?_eq_none.mpr]
  · rfl
  · intro x hx
    simpa using h x hx

/-- Claim C6: rooms are created with one player, `joinRoom` refuses to
append to a room that already has two players (leaving the map unchanged
and emitting the "Room is full" error), `disconnect` filters the leaving
player out of every room, every surviving room satisfies the
`players.length ∈ {0,1,2}` bound (indeed 1 or 2), and a room whose player
list becomes empty is removed from the rooms map together with its stored
game state. -/
theorem c6_room_invariants :
    (∀ rooms sid nm code, playersBound rooms → playersBound (createRoom rooms sid nm code).1) ∧
    (∀ rooms sid code nm, playersBound rooms → playersBound (joinRoom rooms sid code nm).1) ∧
    (∀ rooms sid code nm room, aget rooms code = some room → 2 ≤ room.players.length →
       joinRoom rooms sid code nm = (rooms, [Event.errorMsg "Room is full"])) ∧
    (∀ rooms gstates sid, playersBound rooms →
       playersBound (disconnect rooms gstates sid).1 ∧
       ∀ e ∈ (disconnect rooms gstates sid).1, 1 ≤ e.2.players.length) ∧
    (∀ rooms gstates sid code room,
       (rooms.map Prod.fst).Nodup →
       aget rooms code = some room →
       (room.players.filter (fun p => p.id ≠ sid)).length = 0 →
       aget (disconnect rooms gstates sid).1 code = none ∧
       aget (disconnect rooms gstates sid).2.1 code = none) := by
  refine ⟨?_, ?_, ?_, ?_, ?_⟩
  · intro rooms sid nm code hb e he
    have he' : e ∈ aset rooms code
        { code := code, host := sid,
          players := [{ id := sid, name := nm, ready := true }],
          gameSelected := none } := he
    rcases mem_aset he' with rfl | hmem
    · simp
    · exact hb e hmem
  · intro rooms sid code nm hb e he
    unfold joinRoom at he
    cases hg : aget rooms code with
    | none => rw [hg] at he; exact hb e he
    | some room =>
      rw [hg] at he
      dsimp only at he
      by_cases hfull : 2 ≤ room.players.length
      · rw [if_pos hfull] at he; exact hb e he
      · rw [if_neg hfull] at he
        rcases mem_aset he with rfl | hmem
        · simp only [List.length_append, List.length_singleton]
          omega
        · exact hb e hmem
  · intro rooms sid code nm room hget hfull
    unfold joinRoom
    rw [hget]
    dsimp only
    rw [if_pos hfull]
  · intro rooms gstates sid hb
    constructor
    · intro e he
      unfold disconnect at he
      dsimp only at he
      rw [List.mem_filter] at he
      obtain ⟨he1, _⟩ := he
      rw [List.mem_map] at he1
      obtain ⟨f, hf, rfl⟩ := he1
      calc ((f.2.players.filter (fun p => p.id ≠ sid)).length)
          ≤ f.2.players.length := List.length_filter_le _ _
        _ ≤ 2 := hb f hf
    · intro e he
      unfold disconnect at he
      dsimp only at he
      rw [List.mem_filter] at he
      obtain ⟨_, he2⟩ := he
      simp only [ne_eq, decide_not, Bool.not_eq_true', decide_eq_false_iff_not] at he2
      omega
  · intro rooms gstates sid code room hnd hget hempty
    have hmem : (code, room) ∈ rooms := mem_of_aget hget
    constructor
    · apply aget_eq_none
      intro x hx hxk
      unfold disconnect at hx
      dsimp only at hx
      rw [List.mem_filter] at hx
      obtain ⟨hx1, hx2⟩ := hx
      rw [List.mem_map] at hx1
      obtain ⟨f, hf, rfl⟩ := hx1
      have hfk : f.1 = code := hxk
      have hfeq : f = (code, room) := key_unique hnd hf hmem hfk
      rw [hfeq] at hx2
      have hne : (room.players.filter (fun p => p.id ≠ sid)).length ≠ 0 := by
        simpa using hx2
      exact hne hempty
    · apply aget_eq_none
      intro x hx hxk
      unfold disconnect at hx
      dsimp only at hx
      rw [List.mem_filter] at hx
      obtain ⟨hx1, hx2⟩ := hx
      -- code is among the deleted codes, so x would have been filtered out
      have hdel : code ∈ ((rooms.map (fun e =>
          (e.1, { e.2 with players := e.2.players.filter (fun p => p.id ≠ sid) }))).filter
            (fun e => e.2.players.length = 0)).map Prod.fst := by
        rw [List.mem_map]
        refine ⟨(code, { room with players := room.players.filter (fun p => p.id ≠ sid) }), ?_, rfl⟩
        rw [List.mem_filter]
        constructor
        · rw [List.mem_map]
          exact ⟨(code, room), hmem, rfl⟩
        · simpa using hempty
      rw [hxk] at hx2
      simp only [List.contains_iff_exists_mem_beq] at hx2
      exact absurd hdel (by simpa using hx2)

def roomSolo : Room := { code := "ABC123", host := "p1", players := [pA], gameSelected := none }

/-- Claim C6 witness: a full room refusing a join, and the deletion of a
room (and its game state) emptied by a disconnect. -/
theorem c6_witness :
    joinRoom [("ABC123", roomOld)] "p3" "ABC123" "Carol" =
      ([("ABC123", roomOld)], [Event.errorMsg "Room is full"]) ∧
    aget (disconnect [("ABC123", roomSolo)] [("ABC123", gsTtt)] "p1").1 "ABC123" = none ∧
    aget (disconnect [("ABC123", roomSolo)] [("ABC123", gsTtt)] "p1").2.1 "ABC123" = none :=
  ⟨c6_room_invariants.2.2.1 [("ABC123", roomOld)] "p3" "ABC123" "Carol" roomOld
     (by decide) (by decide),
   (c6_room_invariants.2.2.2.2 [("ABC123", roomSolo)] [("ABC123", gsTtt)] "p1" "ABC123" roomSolo
     (by decide) (by decide) (by decide)).1,
   (c6_room_invariants.2.2.2.2 [("ABC123", roomSolo)] [("ABC123", gsTtt)] "p1" "ABC123" roomSolo
     (by decide) (by decide) (by decide)).2⟩

/-! ## Claim C9 -/

/-- Claim C9: a `makeMove` action with game type `connect4` never invokes
`startTurnTimer`, whatever the store, move, player or outcome — the
move-result branch has no connect4 duration — and `processConnect4Move`
never changes `firstMoveMade`, so the timer-start condition cannot be met
through a connect4 move. -/
theorem c9_connect4_never_starts_timer :
    (∀ states roomCode move pid dice out,
       makeMove states roomCode move pid "connect4" dice = some out →
       out.2.2 = none) ∧
    (∀ gs move pid gs1 res,
       processConnect4Move gs move pid = some (gs1, res) →
       gs1.firstMoveMade = gs.firstMoveMade) := by
  constructor
  · intro states rc move pid dice out h
    unfold makeMove at h
    cases hg : aget states rc with
    | none =>
      rw [hg] at h
      simp only [Option.some.injEq] at h
      rw [← h]
    | some gs =>
      rw [hg] at h
      dsimp only at h
      cases hp : processMove gs move pid "connect4" dice with
      | none => rw [hp] at h; exact Option.noConfusion h
      | some pr =>
        obtain ⟨gs1, res⟩ := pr
        rw [hp] at h
        dsimp only at h
        split at h
        · simp only [Option.some.injEq] at h
          rw [← h]
          dsimp only
          split
          · decide
          · rfl
        · simp only [Option.some.injEq] at h
          rw [← h]
  · intro gs move pid gs1 res h
    unfold processConnect4Move at h
    split at h
    · simp only [Option.some.injEq, Prod.mk.injEq] at h
      obtain ⟨rfl, rfl⟩ := h
      rfl
    · split at h
      all_goals try exact Option.noConfusion h
      rename_i grid hb
      dsimp only at h
      cases hr : c4FindRowAux grid move.column [5, 4, 3, 2, 1, 0] with
      | none => rw [hr] at h; exact Option.noConfusion h
      | some row =>
        rw [hr] at h
        dsimp only at h
        split at h
        · simp only [Option.some.injEq, Prod.mk.injEq] at h
          obtain ⟨rfl, rfl⟩ := h
          rfl
        · repeat' (first | (exact Option.noConfusion h) | split at h)
          all_goals simp only [Option.some.injEq, Prod.mk.injEq] at h
          all_goals obtain ⟨rfl, rfl⟩ := h
          all_goals rfl


def c9Out : GSMap × List Event × Option Nat :=
  (makeMove [("R", gsC4over)] "R" { column := some 0 } "p1" "connect4" 1).getD ([], [], none)

/-- Claim C9 witness: a concrete accepted connect4 move starts no timer. -/
theorem c9_witness :
    makeMove [("R", gsC4over)] "R" { column := some 0 } "p1" "connect4" 1 = some c9Out ∧
    c9Out.2.2 = none :=
  ⟨by decide,
   c9_connect4_never_starts_timer.1 [("R", gsC4over)] "R" { column := some 0 } "p1"
     1 c9Out (by decide)⟩

/-! ## Claim C10 -/

/-- Claim C10: a memorymatch move flipping the first card of a pair-attempt
(no pending flipped card, target face-down and unmatched, the acting
player's turn, game not over) is accepted with `valid:true` and leaves
`currentPlayer` unchanged — the handler performs no turn switch on a first
flip. -/
theorem c10_memorymatch_first_flip (gs : GameState) (m : MemoryBoard) (move : Move)
    (pid : PlayerId) (idx : Int) (card : Card)
    (hcur : gs.currentPlayer = pid) (hover : gs.gameOver = false)
    (hb : gs.board = .memorymatch m) (hpend : m.flippedCards = [])
    (hidx : move.cardIndex = some idx) (hcard : jsGet m.cards idx = some card)
    (hfl : card.flipped = false) (hmt : card.matched = false) :
    (processMemoryMatchMove gs move pid).map (fun r => (r.2.valid, r.1.currentPlayer)) =
      some (true, gs.currentPlayer) := by
  have hguard : ¬ (gs.currentPlayer ≠ pid ∨ gs.gameOver = true) := by simp [hcur, hover]
  unfold processMemoryMatchMove
  rw [if_neg hguard]
  dsimp only
  simp only [clearTimer_board, hb]
  try dsimp only
  rw [hidx]
  try dsimp only
  rw [hcard]
  try dsimp only
  rw [if_neg (by simp [hfl, hmt])]
  rw [hpend]
  try dsimp only
  simp [clearTimer_currentPlayer]

/-- Claim C10 witness: the first flip of card 2 on a fresh 4-card board. -/
theorem c10_witness :
    (processMemoryMatchMove gsMem { cardIndex := some 2 } "p1").map
      (fun r => (r.2.valid, r.1.currentPlayer)) = some (true, gsMem.currentPlayer) :=
  c10_memorymatch_first_flip gsMem memB0 { cardIndex := some 2 } "p1" 2
    { value := 2, flipped := false, matched := false }
    (by decide) (by decide) (by decide) (by decide) (by decide) (by decide)
    (by decide) (by decide)

/-! ## Claim C8 -/

theorem jsGet_some_bounds {l : List α} {i : Int} {v : α} (h : jsGet l i = some v) :
    0 ≤ i ∧ i.toNat < l.length := by
  unfold jsGet at h
  by_cases h0 : 0 ≤ i
  · rw [if_pos h0] at h
    obtain ⟨hlt, _⟩ := List.get?_eq_some.mp h
    exact ⟨h0, hlt⟩
  · rw [if_neg h0] at h
    exact Option.noConfusion h

/-- Claim C8: in ludo, a `movePiece` on a piece at home position 0 is
rejected (`valid:false`) whenever the stored dice value is not 6, and with
a 6 the move is accepted and the piece lands on position 1; and a
`rollDice` whose drawn value leaves the acting player with no legal move
(no piece can leave home without a 6 and no on-board piece can advance to
a position ≤ 57) is accepted but immediately clears the rolled flag and
switches `currentPlayer` to the other player. -/
theorem c8_ludo_home_and_forced_skip :
    (∀ (gs : GameState) (b : LudoBoard) (move : Move) (pid : PlayerId)
    (dice : Nat) (i : Int)
    (hcur : gs.currentPlayer = pid) (hover : gs.gameOver = false)
    (hb : gs.board = .ludo b) (hroll : b.diceRolled = true)
    (hact : move.action = some "movePiece") (hidx : move.pieceIndex = some i)
    (hpiece : jsGet (ludoSideOf b (findIndexJs gs.players (fun p => p.id == pid))).pieces i =
      some 0),
       (b.diceValue ≠ 6 →
       processLudoMove gs move pid dice = some (clearTimer gs, { valid := false })) ∧
    (b.diceValue = 6 →
       (processLudoMove gs move pid dice).map (fun r =>
         (r.2.valid,
          match r.1.board with
          | .ludo b1 => (ludoSideOf b1 (findIndexJs gs.players (fun p => p.id == pid))).pieces
          | _ => [])) =
       some (true,
         jsSet (ludoSideOf b (findIndexJs gs.players (fun p => p.id == pid))).pieces i 1))) ∧
    (∀ (gs : GameState) (b : LudoBoard) (move : Move) (pid : PlayerId)
    (dice : Nat) (oid : PlayerId)
    (hcur : gs.currentPlayer = pid) (hover : gs.gameOver = false)
    (hb : gs.board = .ludo b)
    (hact : move.action = some "rollDice")
    (hoth : otherPlayerId gs.players pid = some oid)
    (hno : ∀ pos ∈ (ludoSideOf b (findIndexJs gs.players (fun p => p.id == pid))).pieces,
       (pos = 0 → dice ≠ 6) ∧ (0 < pos → ¬ (pos + dice ≤ 57))),
       (processLudoMove gs move pid dice).map (fun r =>
      (r.2.valid, r.1.currentPlayer, r.1.firstMoveMade,
       match r.1.board with
       | .ludo b1 => (b1.diceRolled, b1.diceValue)
       | _ => (true, 0))) =
    some (true, oid, true, false, dice)) := by
  constructor
  · intro gs b move pid dice i hcur hover hb hroll hact hidx hpiece
    have hguard : ¬ (gs.currentPlayer ≠ pid ∨ gs.gameOver = true) := by simp [hcur, hover]
    have hnotroll : ¬ (move.action = some "rollDice") := by
      rw [hact]
      intro hcon
      exact absurd (Option.some.inj hcon) (by decide)
    obtain ⟨hge, hlt⟩ := jsGet_some_bounds hpiece
    have hlt0 : jsLtB move.pieceIndex 0 = false := by
      rw [hidx]; simp only [jsLtB, decide_eq_false_iff_not]; omega
    have hge0 : jsGeB move.pieceIndex
        ((ludoSideOf b (findIndexJs gs.players (fun p => p.id == pid))).pieces.length) = false := by
      rw [hidx]; simp only [jsGeB, decide_eq_false_iff_not]; omega
    constructor
    · intro hd6
      unfold processLudoMove
      rw [if_neg hguard]
      try dsimp only
      simp only [clearTimer_players]
      rw [if_neg hnotroll, if_pos hact]
      simp only [clearTimer_board, hb]
      try dsimp only
      rw [if_neg (by simp [hroll])]
      rw [hlt0, hge0]
      simp only [Bool.false_eq_true, false_or, if_false]
      rw [hidx]
      dsimp only [Option.bind]
      rw [if_pos ⟨hpiece, hd6⟩]
    · intro hd6
      unfold processLudoMove
      rw [if_neg hguard]
      try dsimp only
      simp only [clearTimer_players]
      rw [if_neg hnotroll, if_pos hact]
      simp only [clearTimer_board, hb]
      try dsimp only
      rw [if_neg (by simp [hroll])]
      rw [hlt0, hge0]
      simp only [Bool.false_eq_true, false_or, if_false]
      rw [hidx]
      dsimp only [Option.bind]
      rw [if_neg (by simp [hd6])]
      simp only [hpiece, hd6]
      norm_num
      unfold ludoSideOf
      by_cases hpi : (findIndexJs gs.players fun p => p.id == pid) = 0
      all_goals simp [hpi]
      all_goals split
      all_goals exact ⟨_, _, rfl, rfl, rfl⟩
  · intro gs b move pid dice oid hcur hover hb hact hoth hno
    have hguard : ¬ (gs.currentPlayer ≠ pid ∨ gs.gameOver = true) := by simp [hcur, hover]
    have hcant : canPlayerMove { b with diceValue := dice, diceRolled := true }
        (findIndexJs gs.players (fun p => p.id == pid)) dice = false := by
      unfold canPlayerMove
      rw [List.any_eq_false]
      intro pos hpos
      have hpos' : pos ∈ (ludoSideOf b (findIndexJs gs.players (fun p => p.id == pid))).pieces := hpos
      obtain ⟨h0, h57⟩ := hno pos hpos'
      rcases Nat.eq_zero_or_pos pos with hz | hp
      · subst hz
        simp [h0 rfl]
      · have h57' := h57 hp
        simp [Nat.pos_iff_ne_zero.mp hp, h57']
    unfold processLudoMove
    rw [if_neg hguard]
    try dsimp only
    simp only [clearTimer_players]
    rw [if_pos hact]
    simp only [clearTimer_board, hb]
    try dsimp only
    rw [if_pos (by simp [hcant])]
    rw [hoth]
    simp

def ludoB6 : LudoBoard := { ludoB0 with diceValue := 6, diceRolled := true }

def gsLudo6 : GameState := baseGS "ludo" (.ludo ludoB6)

/-- Claim C8 witness: the home piece leaving on a rolled 6, and a rolled 3
with every piece at home forcing an immediate turn switch. -/
theorem c8_witness :
    ((processLudoMove gsLudo6 { action := some "movePiece", pieceIndex := some 0 } "p1" 1).map
       (fun r =>
         (r.2.valid,
          match r.1.board with
          | .ludo b1 => (ludoSideOf b1 (findIndexJs gsLudo6.players (fun p => p.id == "p1"))).pieces
          | _ => [])) =
      some (true,
        jsSet (ludoSideOf ludoB6 (findIndexJs gsLudo6.players (fun p => p.id == "p1"))).pieces 0 1)) ∧
    ((processLudoMove gsLudo { action := some "rollDice" } "p1" 3).map (fun r =>
       (r.2.valid, r.1.currentPlayer, r.1.firstMoveMade,
        match r.1.board with
        | .ludo b1 => (b1.diceRolled, b1.diceValue)
        | _ => (true, 0))) = some (true, "p2", true, false, 3)) :=
  ⟨(c8_ludo_home_and_forced_skip.1 gsLudo6 ludoB6
      { action := some "movePiece", pieceIndex := some 0 } "p1" 1 0
      (by decide) (by decide) (by decide) (by decide) (by decide) (by decide) (by decide)).2
      (by decide),
   c8_ludo_home_and_forced_skip.2 gsLudo ludoB0
     { action := some "rollDice" } "p1" 3 "p2"
     (by decide) (by decide) (by decide) (by decide) (by decide) (by decide)⟩
